import Mathlib

/-!
# gRPC handlers of the accounts auth service (package `grpchandlerv1`)

Shallow embedding of `internal/handler/v1/grpc/localuser.go` and
`internal/handler/v1/grpc/oauthuser.go`.

The handlers are thin: validate the request, parse the user ID, (for two OAuth
handlers) convert the provider, call one usecase operation, build a response.
Everything they call lives outside the two files, so it is taken as a
parameter:

* `U`  : `uuid.UUID`                 * `P`  : the protobuf provider enum
* `EP` : the ent provider enum       * `E`  : Go `error` values
* `C`  : error codes (`errcode.*`)   * `T`  : `timestamppb.Timestamp`
* `σ`  : the state behind the usecase (the credential store and whatever else
         a usecase call may read or change)

A handler run is a function from the usecase state to an `Outcome`: the pair
`(response, error)` the Go function returns, the usecase calls it made (in
order), the entries it wrote to the injected logger, and the usecase state
afterwards. `context.Context` is handed to the usecase untouched and is left
out. A usecase operation that returns `(record, error)` is modelled as
`Except E record`: the handlers read the record only when `err == nil`.
-/

namespace Grpchandlerv1

/-! ## Wire messages (the fields the handlers read or set) -/

structure UpdateEmailVerificationRequest where
  UserId : String
  Verified : Bool
  deriving DecidableEq, Repr

structure UpdateEmailVerificationResponse (T : Type) where
  UserId : String
  Verified : Bool
  UpdatedAt : T
  deriving DecidableEq, Repr

structure CreateLocalUserRequest where
  UserId : String
  Email : String
  Password : String
  deriving DecidableEq, Repr

structure CreateLocalUserResponse (T : Type) where
  UserId : String
  CreatedAt : T
  deriving DecidableEq, Repr

structure DeleteLocalUserRequest where
  UserId : String
  deriving DecidableEq, Repr

structure DeleteLocalUserResponse (T : Type) where
  UserId : String
  DeletedAt : T
  deriving DecidableEq, Repr

structure UpdateLocalUserEmailRequest where
  UserId : String
  NewEmail : String
  deriving DecidableEq, Repr

structure UpdateLocalUserEmailResponse (T : Type) where
  UserId : String
  UpdatedEmail : String
  UpdatedAt : T
  deriving DecidableEq, Repr

structure CreateOAuthUserRequest (P : Type) where
  UserId : String
  Provider : P
  AccessToken : String
  Code : String
  deriving DecidableEq, Repr

structure CreateOAuthUserResponse (P T : Type) where
  UserId : String
  Provider : P
  ProviderId : String
  Email : String
  Verified : Bool
  CreatedAt : T
  deriving DecidableEq, Repr

structure DeleteOAuthUserRequest (P : Type) where
  UserId : String
  Provider : P
  deriving DecidableEq, Repr

structure DeleteOAuthUserResponse (P T : Type) where
  UserId : String
  Provider : P
  DeletedAt : T
  deriving DecidableEq, Repr

structure SyncOAuthUserRequest (P : Type) where
  UserId : String
  Provider : P
  AccessToken : String
  Code : String
  deriving DecidableEq, Repr

structure SyncOAuthUserResponse (P T : Type) where
  UserId : String
  Provider : P
  SyncedAt : T
  deriving DecidableEq, Repr

/-! ## Domain records returned by the usecases (the fields the handlers read) -/

/-- The record `CreateLocalAuthUser` and `UpdateAuthUserEmail` return. -/
structure LocalAuthUser (U : Type) where
  UserID : U
  Email : String
  deriving DecidableEq, Repr

/-- The record `CreateOAuthUser` and `SyncOAuthUser` return. -/
structure OAuthAuthUser (U : Type) where
  UserID : U
  ProviderID : String
  Email : String
  IsVerified : Bool
  deriving DecidableEq, Repr

/-! ## Collaborators -/

/-- The interface `authuser.LocalUserUsecase`, each operation a transition of the
usecase state. -/
structure LocalUserUsecase (U E σ : Type) where
  UpdateLocalEmailVerificationStatus : U → Bool → σ → Option E × σ
  CreateLocalAuthUser : U → String → String → σ → Except E (LocalAuthUser U) × σ
  DeleteAuthUser : U → σ → Option E × σ
  UpdateAuthUserEmail : U → String → σ → Except E (LocalAuthUser U) × σ

/-- The interface `authuser.OAuthUserUsecase`, each operation a transition of the
usecase state. -/
structure OAuthUserUsecase (U EP E σ : Type) where
  CreateOAuthUser : U → EP → String → String → σ → Except E (OAuthAuthUser U) × σ
  DeleteOAuthUser : U → σ → Option E × σ
  SyncOAuthUser : U → EP → String → String → σ → Except E (OAuthAuthUser U) × σ

/-- The functions the handlers call that are neither usecase operations nor
defined in the handler files: the generated `Validate` methods (`none` is a
nil error), `uuid.Parse`, `UUID.String`, `util.FromProtoToEnt`,
`errors.Upgrade` and the constant `errcode.ErrInvalidFormat`. -/
structure Deps (U P EP E C : Type) where
  validateUpdateEmailVerification : UpdateEmailVerificationRequest → Option E
  validateCreateLocalUser : CreateLocalUserRequest → Option E
  validateDeleteLocalUser : DeleteLocalUserRequest → Option E
  validateUpdateLocalUserEmail : UpdateLocalUserEmailRequest → Option E
  validateCreateOAuthUser : CreateOAuthUserRequest P → Option E
  validateDeleteOAuthUser : DeleteOAuthUserRequest P → Option E
  validateSyncOAuthUser : SyncOAuthUserRequest P → Option E
  uuidParse : String → Except E U
  uuidString : U → String
  FromProtoToEnt : P → Except E EP
  Upgrade : E → String → C → E
  ErrInvalidFormat : C

/-- One call of a usecase operation, with the arguments it was given. -/
inductive UsecaseCall (U EP : Type) where
  | UpdateLocalEmailVerificationStatus (userID : U) (verified : Bool)
  | CreateLocalAuthUser (userID : U) (email password : String)
  | DeleteAuthUser (userID : U)
  | UpdateAuthUserEmail (userID : U) (newEmail : String)
  | CreateOAuthUser (userID : U) (provider : EP) (accessToken code : String)
  | DeleteOAuthUser (userID : U)
  | SyncOAuthUser (userID : U) (provider : EP) (accessToken code : String)
  deriving DecidableEq, Repr

/-- What one handler call did: the returned `(resp, err)` pair (`none` is nil),
the usecase calls made in order, the entries written to the injected
`*zap.Logger`, and the usecase state afterwards. -/
structure Outcome (R U EP E σ : Type) where
  resp : Option R
  err : Option E
  calls : List (UsecaseCall U EP)
  logs : List String
  state : σ

/-- The Go return values of a handler run are `(resp, err)`. -/
def Outcome.Returns {R U EP E σ : Type} (r : Outcome R U EP E σ) (resp : Option R)
    (err : Option E) : Prop :=
  r.resp = resp ∧ r.err = err

/-- Exactly one of the two return values is nil: a response with a nil error, or
a nil response with an error. -/
def Outcome.ExactlyOne {R U EP E σ : Type} (r : Outcome R U EP E σ) : Prop :=
  (r.resp.isSome = true ∧ r.err = none) ∨ (r.resp = none ∧ r.err.isSome = true)

/-- The `err` half of a Go `(record, err)` result; `none` is nil. -/
def errOf {E α : Type} : Except E α → Option E
  | .error e => some e
  | .ok _ => none

section Handlers

variable {U P EP E C T σ : Type}

/-! ## `localuser.go` -/

/-- The method `(*LocalUserHandler).UpdateEmailVerification`. -/
def UpdateEmailVerification (d : Deps U P EP E C) (l : LocalUserUsecase U E σ) (now : T)
    (req : UpdateEmailVerificationRequest) (s : σ) :
    Outcome (UpdateEmailVerificationResponse T) U EP E σ :=
  match d.validateUpdateEmailVerification req with
  | some err =>
    ⟨none, some (d.Upgrade err "UpdateEmailVerification request validation failed"
      d.ErrInvalidFormat), [], [], s⟩
  | none =>
    match d.uuidParse req.UserId with
    | .error err => ⟨none, some (d.Upgrade err "Invalid user ID format" d.ErrInvalidFormat), [], [], s⟩
    | .ok userID =>
      match l.UpdateLocalEmailVerificationStatus userID req.Verified s with
      | (some err, s') =>
        ⟨none, some err, [.UpdateLocalEmailVerificationStatus userID req.Verified], [], s'⟩
      | (none, s') =>
        ⟨some { UserId := req.UserId, Verified := req.Verified, UpdatedAt := now }, none,
          [.UpdateLocalEmailVerificationStatus userID req.Verified], [], s'⟩

/-- The method `(*LocalUserHandler).CreateLocalUser`. -/
def CreateLocalUser (d : Deps U P EP E C) (l : LocalUserUsecase U E σ) (now : T)
    (req : CreateLocalUserRequest) (s : σ) :
    Outcome (CreateLocalUserResponse T) U EP E σ :=
  match d.validateCreateLocalUser req with
  | some err =>
    ⟨none, some (d.Upgrade err "CreateLocalUser request validation failed"
      d.ErrInvalidFormat), [], [], s⟩
  | none =>
    match d.uuidParse req.UserId with
    | .error err => ⟨none, some (d.Upgrade err "Invalid user ID format" d.ErrInvalidFormat), [], [], s⟩
    | .ok userID =>
      match l.CreateLocalAuthUser userID req.Email req.Password s with
      | (.error err, s') =>
        ⟨none, some err, [.CreateLocalAuthUser userID req.Email req.Password], [], s'⟩
      | (.ok createdUser, s') =>
        ⟨some { UserId := d.uuidString createdUser.UserID, CreatedAt := now }, none,
          [.CreateLocalAuthUser userID req.Email req.Password], [], s'⟩

/-- The method `(*LocalUserHandler).DeleteLocalUser`. -/
def DeleteLocalUser (d : Deps U P EP E C) (l : LocalUserUsecase U E σ) (now : T)
    (req : DeleteLocalUserRequest) (s : σ) :
    Outcome (DeleteLocalUserResponse T) U EP E σ :=
  match d.validateDeleteLocalUser req with
  | some err =>
    ⟨none, some (d.Upgrade err "DeleteLocalUser request validation failed"
      d.ErrInvalidFormat), [], [], s⟩
  | none =>
    match d.uuidParse req.UserId with
    | .error err => ⟨none, some (d.Upgrade err "Invalid user ID format" d.ErrInvalidFormat), [], [], s⟩
    | .ok userID =>
      match l.DeleteAuthUser userID s with
      | (some err, s') => ⟨none, some err, [.DeleteAuthUser userID], [], s'⟩
      | (none, s') =>
        ⟨some { UserId := req.UserId, DeletedAt := now }, none, [.DeleteAuthUser userID], [], s'⟩

/-- The method `(*LocalUserHandler).UpdateLocalUserEmail`. -/
def UpdateLocalUserEmail (d : Deps U P EP E C) (l : LocalUserUsecase U E σ) (now : T)
    (req : UpdateLocalUserEmailRequest) (s : σ) :
    Outcome (UpdateLocalUserEmailResponse T) U EP E σ :=
  match d.validateUpdateLocalUserEmail req with
  | some err =>
    ⟨none, some (d.Upgrade err "UpdateLocalUserEmail request validation failed"
      d.ErrInvalidFormat), [], [], s⟩
  | none =>
    match d.uuidParse req.UserId with
    | .error err => ⟨none, some (d.Upgrade err "Invalid user ID format" d.ErrInvalidFormat), [], [], s⟩
    | .ok userID =>
      match l.UpdateAuthUserEmail userID req.NewEmail s with
      | (.error err, s') => ⟨none, some err, [.UpdateAuthUserEmail userID req.NewEmail], [], s'⟩
      | (.ok updatedUser, s') =>
        ⟨some { UserId := d.uuidString updatedUser.UserID, UpdatedEmail := updatedUser.Email,
                UpdatedAt := now }, none,
          [.UpdateAuthUserEmail userID req.NewEmail], [], s'⟩

/-! ## `oauthuser.go` -/

/-- The method `(*OAuthUserHandler).CreateOAuthUser`. A failed provider conversion
is returned as it is (`return nil, err`). -/
def CreateOAuthUser (d : Deps U P EP E C) (o : OAuthUserUsecase U EP E σ) (now : T)
    (req : CreateOAuthUserRequest P) (s : σ) :
    Outcome (CreateOAuthUserResponse P T) U EP E σ :=
  match d.validateCreateOAuthUser req with
  | some err =>
    ⟨none, some (d.Upgrade err "CreateOAuthUser request validation failed"
      d.ErrInvalidFormat), [], [], s⟩
  | none =>
    match d.uuidParse req.UserId with
    | .error err => ⟨none, some (d.Upgrade err "Invalid user ID format" d.ErrInvalidFormat), [], [], s⟩
    | .ok userID =>
      match d.FromProtoToEnt req.Provider with
      | .error err => ⟨none, some err, [], [], s⟩
      | .ok entProvider =>
        match o.CreateOAuthUser userID entProvider req.AccessToken req.Code s with
        | (.error err, s') =>
          ⟨none, some err, [.CreateOAuthUser userID entProvider req.AccessToken req.Code], [], s'⟩
        | (.ok createdUser, s') =>
          ⟨some { UserId := d.uuidString createdUser.UserID, Provider := req.Provider,
                  ProviderId := createdUser.ProviderID, Email := createdUser.Email,
                  Verified := createdUser.IsVerified, CreatedAt := now }, none,
            [.CreateOAuthUser userID entProvider req.AccessToken req.Code], [], s'⟩

/-- The method `(*OAuthUserHandler).DeleteOAuthUser`. -/
def DeleteOAuthUser (d : Deps U P EP E C) (o : OAuthUserUsecase U EP E σ) (now : T)
    (req : DeleteOAuthUserRequest P) (s : σ) :
    Outcome (DeleteOAuthUserResponse P T) U EP E σ :=
  match d.validateDeleteOAuthUser req with
  | some err =>
    ⟨none, some (d.Upgrade err "DeleteOAuthUser request validation failed"
      d.ErrInvalidFormat), [], [], s⟩
  | none =>
    match d.uuidParse req.UserId with
    | .error err => ⟨none, some (d.Upgrade err "Invalid user ID format" d.ErrInvalidFormat), [], [], s⟩
    | .ok userID =>
      match o.DeleteOAuthUser userID s with
      | (some err, s') => ⟨none, some err, [.DeleteOAuthUser userID], [], s'⟩
      | (none, s') =>
        ⟨some { UserId := req.UserId, Provider := req.Provider, DeletedAt := now }, none,
          [.DeleteOAuthUser userID], [], s'⟩

/-- The method `(*OAuthUserHandler).SyncOAuthUser`. -/
def SyncOAuthUser (d : Deps U P EP E C) (o : OAuthUserUsecase U EP E σ) (now : T)
    (req : SyncOAuthUserRequest P) (s : σ) :
    Outcome (SyncOAuthUserResponse P T) U EP E σ :=
  match d.validateSyncOAuthUser req with
  | some err =>
    ⟨none, some (d.Upgrade err "SyncOAuthUser request validation failed"
      d.ErrInvalidFormat), [], [], s⟩
  | none =>
    match d.uuidParse req.UserId with
    | .error err => ⟨none, some (d.Upgrade err "Invalid user ID format" d.ErrInvalidFormat), [], [], s⟩
    | .ok userID =>
      match d.FromProtoToEnt req.Provider with
      | .error err =>
        ⟨none, some (d.Upgrade err "Invalid provider format" d.ErrInvalidFormat), [], [], s⟩
      | .ok entProvider =>
        match o.SyncOAuthUser userID entProvider req.AccessToken req.Code s with
        | (.error err, s') =>
          ⟨none, some err, [.SyncOAuthUser userID entProvider req.AccessToken req.Code], [], s'⟩
        | (.ok updatedUser, s') =>
          ⟨some { UserId := d.uuidString updatedUser.UserID, Provider := req.Provider,
                  SyncedAt := now }, none,
            [.SyncOAuthUser userID entProvider req.AccessToken req.Code], [], s'⟩

end Handlers

/-! ## A concrete instance

An in-memory instance of every collaborator, used to run the handlers on
concrete requests. -/

namespace Example

/-- Error codes of the example instance. -/
inductive Code where
  | ErrInvalidFormat
  | ErrNotFound
  | ErrConflict
  deriving DecidableEq, Repr

/-- Error values of the example instance: a bare error, an application error
carrying a code, or the result of `Upgrade` applied to a cause. -/
inductive Err where
  | raw (msg : String)
  | coded (code : Code) (msg : String)
  | upgraded (cause : Err) (msg : String) (code : Code)
  deriving DecidableEq, Repr

/-- Protobuf provider values of the example instance. -/
inductive Provider where
  | UNSPECIFIED
  | GOOGLE
  | NAVER
  deriving DecidableEq, Repr

/-- Ent provider values of the example instance. -/
inductive EntProvider where
  | google
  | naver
  deriving DecidableEq, Repr

/-- Value of one hexadecimal digit, either case. -/
def hexVal (c : Char) : Option Nat :=
  let n := c.toNat
  if 48 ≤ n ∧ n ≤ 57 then some (n - 48)
  else if 97 ≤ n ∧ n ≤ 102 then some (n - 87)
  else if 65 ≤ n ∧ n ≤ 70 then some (n - 55)
  else none

/-- Lower-case hexadecimal digit of a value below 16. -/
def hexChar (v : Nat) : Char :=
  ['0', '1', '2', '3', '4', '5', '6', '7', '8', '9', 'a', 'b', 'c', 'd', 'e', 'f'].getD v '0'

/-- Reads the hyphenated form from position `i` on: a hyphen at positions 8,
13, 18 and 23, a hexadecimal digit everywhere else. -/
def parseFrom : Nat → List Char → Option (List Nat)
  | _, [] => some []
  | i, c :: cs =>
    if i = 8 ∨ i = 13 ∨ i = 18 ∨ i = 23 then
      if c = '-' then parseFrom (i + 1) cs else none
    else
      match hexVal c, parseFrom (i + 1) cs with
      | some v, some vs => some (v :: vs)
      | _, _ => none

/-- Example `uuid.Parse`: accepts the 36-character hyphenated form with digits
in either case; a UUID is its list of 32 hexadecimal digit values. -/
def uuidParse (str : String) : Except Err (List Nat) :=
  if str.data.length = 36 then
    match parseFrom 0 str.data with
    | some u => .ok u
    | none => .error (.raw "invalid UUID format")
  else .error (.raw "invalid UUID length")

/-- Writes digit values from digit position `i` on, a hyphen before digit
positions 8, 12, 16 and 20. -/
def renderFrom : Nat → List Nat → List Char
  | _, [] => []
  | i, v :: vs =>
    if i = 8 ∨ i = 12 ∨ i = 16 ∨ i = 20 then '-' :: hexChar v :: renderFrom (i + 1) vs
    else hexChar v :: renderFrom (i + 1) vs

/-- Example `UUID.String`: the lower-case hyphenated form. -/
def uuidString (u : List Nat) : String := String.mk (renderFrom 0 u)

/-- Example `util.FromProtoToEnt`: the unspecified provider has no ent value. -/
def FromProtoToEnt : Provider → Except Err EntProvider
  | .GOOGLE => .ok .google
  | .NAVER => .ok .naver
  | .UNSPECIFIED => .error (.raw "unsupported provider")

/-- Example validation rule shared by all messages: the user ID is not empty. -/
def validateUserId (userId : String) : Option Err :=
  if userId = "" then some (.raw "invalid UserId: value is required") else none

/-- The example collaborators. -/
def deps : Deps (List Nat) Provider EntProvider Err Code where
  validateUpdateEmailVerification := fun req => validateUserId req.UserId
  validateCreateLocalUser := fun req =>
    match validateUserId req.UserId with
    | some e => some e
    | none =>
      if req.Password.data.length < 8 then
        some (.raw "invalid Password: value length must be at least 8")
      else none
  validateDeleteLocalUser := fun req => validateUserId req.UserId
  validateUpdateLocalUserEmail := fun req => validateUserId req.UserId
  validateCreateOAuthUser := fun req => validateUserId req.UserId
  validateDeleteOAuthUser := fun req => validateUserId req.UserId
  validateSyncOAuthUser := fun req => validateUserId req.UserId
  uuidParse := uuidParse
  uuidString := uuidString
  FromProtoToEnt := FromProtoToEnt
  Upgrade := Err.upgraded
  ErrInvalidFormat := Code.ErrInvalidFormat

/-- State of the example usecases: the stored local credentials and the stored
OAuth identities (each with its provider). -/
structure Store where
  locals : List (LocalAuthUser (List Nat))
  oauths : List (EntProvider × OAuthAuthUser (List Nat))
  deriving DecidableEq, Repr

/-- Example local usecase over the store: create refuses a second credential
for a user, the other operations need an existing one; stored emails are kept
in lower case. -/
def localUsecase : LocalUserUsecase (List Nat) Err Store where
  UpdateLocalEmailVerificationStatus := fun userID _ st =>
    if st.locals.any (fun r => r.UserID = userID) then (none, st)
    else (some (.coded .ErrNotFound "local user not found"), st)
  CreateLocalAuthUser := fun userID email _ st =>
    if st.locals.any (fun r => r.UserID = userID) then
      (.error (.coded .ErrConflict "local user already exists"), st)
    else
      let r : LocalAuthUser (List Nat) := ⟨userID, String.mk (email.data.map Char.toLower)⟩
      (.ok r, { st with locals := r :: st.locals })
  DeleteAuthUser := fun userID st =>
    if st.locals.any (fun r => r.UserID = userID) then
      (none, { st with locals := st.locals.filter (fun r => r.UserID ≠ userID) })
    else (some (.coded .ErrNotFound "local user not found"), st)
  UpdateAuthUserEmail := fun userID newEmail st =>
    if st.locals.any (fun r => r.UserID = userID) then
      let r : LocalAuthUser (List Nat) := ⟨userID, String.mk (newEmail.data.map Char.toLower)⟩
      (.ok r, { st with locals := st.locals.map (fun x => if x.UserID = userID then r else x) })
    else (.error (.coded .ErrNotFound "local user not found"), st)

/-- Example OAuth usecase over the store: the provider account is the access
token when there is one and the code otherwise. -/
def oauthUsecase : OAuthUserUsecase (List Nat) EntProvider Err Store where
  CreateOAuthUser := fun userID provider accessToken code st =>
    if st.oauths.any (fun r => r.1 = provider ∧ r.2.UserID = userID) then
      (.error (.coded .ErrConflict "oauth user already exists"), st)
    else
      let r : OAuthAuthUser (List Nat) :=
        ⟨userID, if accessToken = "" then code else accessToken, "user@example.com", true⟩
      (.ok r, { st with oauths := (provider, r) :: st.oauths })
  DeleteOAuthUser := fun userID st =>
    if st.oauths.any (fun r => r.2.UserID = userID) then
      (none, { st with oauths := st.oauths.filter (fun r => r.2.UserID ≠ userID) })
    else (some (.coded .ErrNotFound "oauth user not found"), st)
  SyncOAuthUser := fun userID provider _ _ st =>
    match st.oauths.find? (fun r => r.1 = provider ∧ r.2.UserID = userID) with
    | some r => (.ok r.2, st)
    | none => (.error (.coded .ErrNotFound "oauth user not found"), st)

/-- The empty store. -/
def emptyStore : Store := ⟨[], []⟩

/-- A user ID written in upper case. -/
def upperId : String := "A3BB189E-8BF9-3888-9912-ACE4E6543002"

/-- The same user ID in canonical lower case. -/
def lowerId : String := "a3bb189e-8bf9-3888-9912-ace4e6543002"

/-- The UUID both spellings denote. -/
def theId : List Nat :=
  [10, 3, 11, 11, 1, 8, 9, 14, 8, 11, 15, 9, 3, 8, 8, 8, 9, 9, 1, 2, 10, 12, 14, 4, 14, 6, 5, 4,
   3, 0, 0, 2]

/-- A store holding one local credential and one Google identity of `theId`. -/
def oneUserStore : Store :=
  ⟨[⟨theId, "old@example.com"⟩], [(.google, ⟨theId, "g-123", "user@example.com", true⟩)]⟩

end Example

/-! ## The paths through each handler

One equation per `return` statement of each handler: the conditions under
which it is reached and the outcome it produces. -/

section Paths

variable {U P EP E C T σ : Type}

theorem UpdateEmailVerification_invalid (d : Deps U P EP E C) (l : LocalUserUsecase U E σ)
    (now : T) (req : UpdateEmailVerificationRequest) (s : σ) (e : E)
    (hv : d.validateUpdateEmailVerification req = some e) :
    UpdateEmailVerification d l now req s =
      ⟨none, some (d.Upgrade e "UpdateEmailVerification request validation failed"
        d.ErrInvalidFormat), [], [], s⟩ := by
  simp [UpdateEmailVerification, hv]

theorem UpdateEmailVerification_badId (d : Deps U P EP E C) (l : LocalUserUsecase U E σ)
    (now : T) (req : UpdateEmailVerificationRequest) (s : σ) (e : E)
    (hv : d.validateUpdateEmailVerification req = none)
    (hp : d.uuidParse req.UserId = .error e) :
    UpdateEmailVerification d l now req s =
      ⟨none, some (d.Upgrade e "Invalid user ID format" d.ErrInvalidFormat), [], [], s⟩ := by
  simp [UpdateEmailVerification, hv, hp]

theorem UpdateEmailVerification_failed (d : Deps U P EP E C) (l : LocalUserUsecase U E σ)
    (now : T) (req : UpdateEmailVerificationRequest) (s s' : σ) (userID : U) (e : E)
    (hv : d.validateUpdateEmailVerification req = none)
    (hp : d.uuidParse req.UserId = .ok userID)
    (hu : l.UpdateLocalEmailVerificationStatus userID req.Verified s = (some e, s')) :
    UpdateEmailVerification d l now req s =
      ⟨none, some e, [.UpdateLocalEmailVerificationStatus userID req.Verified], [], s'⟩ := by
  simp [UpdateEmailVerification, hv, hp, hu]

theorem UpdateEmailVerification_done (d : Deps U P EP E C) (l : LocalUserUsecase U E σ)
    (now : T) (req : UpdateEmailVerificationRequest) (s s' : σ) (userID : U)
    (hv : d.validateUpdateEmailVerification req = none)
    (hp : d.uuidParse req.UserId = .ok userID)
    (hu : l.UpdateLocalEmailVerificationStatus userID req.Verified s = (none, s')) :
    UpdateEmailVerification d l now req s =
      ⟨some { UserId := req.UserId, Verified := req.Verified, UpdatedAt := now }, none,
        [.UpdateLocalEmailVerificationStatus userID req.Verified], [], s'⟩ := by
  simp [UpdateEmailVerification, hv, hp, hu]

theorem CreateLocalUser_invalid (d : Deps U P EP E C) (l : LocalUserUsecase U E σ)
    (now : T) (req : CreateLocalUserRequest) (s : σ) (e : E)
    (hv : d.validateCreateLocalUser req = some e) :
    CreateLocalUser d l now req s =
      ⟨none, some (d.Upgrade e "CreateLocalUser request validation failed"
        d.ErrInvalidFormat), [], [], s⟩ := by
  simp [CreateLocalUser, hv]

theorem CreateLocalUser_badId (d : Deps U P EP E C) (l : LocalUserUsecase U E σ)
    (now : T) (req : CreateLocalUserRequest) (s : σ) (e : E)
    (hv : d.validateCreateLocalUser req = none)
    (hp : d.uuidParse req.UserId = .error e) :
    CreateLocalUser d l now req s =
      ⟨none, some (d.Upgrade e "Invalid user ID format" d.ErrInvalidFormat), [], [], s⟩ := by
  simp [CreateLocalUser, hv, hp]

theorem CreateLocalUser_failed (d : Deps U P EP E C) (l : LocalUserUsecase U E σ)
    (now : T) (req : CreateLocalUserRequest) (s s' : σ) (userID : U) (e : E)
    (hv : d.validateCreateLocalUser req = none)
    (hp : d.uuidParse req.UserId = .ok userID)
    (hu : l.CreateLocalAuthUser userID req.Email req.Password s = (.error e, s')) :
    CreateLocalUser d l now req s =
      ⟨none, some e, [.CreateLocalAuthUser userID req.Email req.Password], [], s'⟩ := by
  simp [CreateLocalUser, hv, hp, hu]

theorem CreateLocalUser_done (d : Deps U P EP E C) (l : LocalUserUsecase U E σ)
    (now : T) (req : CreateLocalUserRequest) (s s' : σ) (userID : U)
    (createdUser : LocalAuthUser U)
    (hv : d.validateCreateLocalUser req = none)
    (hp : d.uuidParse req.UserId = .ok userID)
    (hu : l.CreateLocalAuthUser userID req.Email req.Password s = (.ok createdUser, s')) :
    CreateLocalUser d l now req s =
      ⟨some { UserId := d.uuidString createdUser.UserID, CreatedAt := now }, none,
        [.CreateLocalAuthUser userID req.Email req.Password], [], s'⟩ := by
  simp [CreateLocalUser, hv, hp, hu]

theorem DeleteLocalUser_invalid (d : Deps U P EP E C) (l : LocalUserUsecase U E σ)
    (now : T) (req : DeleteLocalUserRequest) (s : σ) (e : E)
    (hv : d.validateDeleteLocalUser req = some e) :
    DeleteLocalUser d l now req s =
      ⟨none, some (d.Upgrade e "DeleteLocalUser request validation failed"
        d.ErrInvalidFormat), [], [], s⟩ := by
  simp [DeleteLocalUser, hv]

theorem DeleteLocalUser_badId (d : Deps U P EP E C) (l : LocalUserUsecase U E σ)
    (now : T) (req : DeleteLocalUserRequest) (s : σ) (e : E)
    (hv : d.validateDeleteLocalUser req = none)
    (hp : d.uuidParse req.UserId = .error e) :
    DeleteLocalUser d l now req s =
      ⟨none, some (d.Upgrade e "Invalid user ID format" d.ErrInvalidFormat), [], [], s⟩ := by
  simp [DeleteLocalUser, hv, hp]

theorem DeleteLocalUser_failed (d : Deps U P EP E C) (l : LocalUserUsecase U E σ)
    (now : T) (req : DeleteLocalUserRequest) (s s' : σ) (userID : U) (e : E)
    (hv : d.validateDeleteLocalUser req = none)
    (hp : d.uuidParse req.UserId = .ok userID)
    (hu : l.DeleteAuthUser userID s = (some e, s')) :
    DeleteLocalUser d l now req s = ⟨none, some e, [.DeleteAuthUser userID], [], s'⟩ := by
  simp [DeleteLocalUser, hv, hp, hu]

theorem DeleteLocalUser_done (d : Deps U P EP E C) (l : LocalUserUsecase U E σ)
    (now : T) (req : DeleteLocalUserRequest) (s s' : σ) (userID : U)
    (hv : d.validateDeleteLocalUser req = none)
    (hp : d.uuidParse req.UserId = .ok userID)
    (hu : l.DeleteAuthUser userID s = (none, s')) :
    DeleteLocalUser d l now req s =
      ⟨some { UserId := req.UserId, DeletedAt := now }, none,
        [.DeleteAuthUser userID], [], s'⟩ := by
  simp [DeleteLocalUser, hv, hp, hu]

theorem UpdateLocalUserEmail_invalid (d : Deps U P EP E C) (l : LocalUserUsecase U E σ)
    (now : T) (req : UpdateLocalUserEmailRequest) (s : σ) (e : E)
    (hv : d.validateUpdateLocalUserEmail req = some e) :
    UpdateLocalUserEmail d l now req s =
      ⟨none, some (d.Upgrade e "UpdateLocalUserEmail request validation failed"
        d.ErrInvalidFormat), [], [], s⟩ := by
  simp [UpdateLocalUserEmail, hv]

theorem UpdateLocalUserEmail_badId (d : Deps U P EP E C) (l : LocalUserUsecase U E σ)
    (now : T) (req : UpdateLocalUserEmailRequest) (s : σ) (e : E)
    (hv : d.validateUpdateLocalUserEmail req = none)
    (hp : d.uuidParse req.UserId = .error e) :
    UpdateLocalUserEmail d l now req s =
      ⟨none, some (d.Upgrade e "Invalid user ID format" d.ErrInvalidFormat), [], [], s⟩ := by
  simp [UpdateLocalUserEmail, hv, hp]

theorem UpdateLocalUserEmail_failed (d : Deps U P EP E C) (l : LocalUserUsecase U E σ)
    (now : T) (req : UpdateLocalUserEmailRequest) (s s' : σ) (userID : U) (e : E)
    (hv : d.validateUpdateLocalUserEmail req = none)
    (hp : d.uuidParse req.UserId = .ok userID)
    (hu : l.UpdateAuthUserEmail userID req.NewEmail s = (.error e, s')) :
    UpdateLocalUserEmail d l now req s =
      ⟨none, some e, [.UpdateAuthUserEmail userID req.NewEmail], [], s'⟩ := by
  simp [UpdateLocalUserEmail, hv, hp, hu]

theorem UpdateLocalUserEmail_done (d : Deps U P EP E C) (l : LocalUserUsecase U E σ)
    (now : T) (req : UpdateLocalUserEmailRequest) (s s' : σ) (userID : U)
    (updatedUser : LocalAuthUser U)
    (hv : d.validateUpdateLocalUserEmail req = none)
    (hp : d.uuidParse req.UserId = .ok userID)
    (hu : l.UpdateAuthUserEmail userID req.NewEmail s = (.ok updatedUser, s')) :
    UpdateLocalUserEmail d l now req s =
      ⟨some { UserId := d.uuidString updatedUser.UserID, UpdatedEmail := updatedUser.Email,
              UpdatedAt := now }, none,
        [.UpdateAuthUserEmail userID req.NewEmail], [], s'⟩ := by
  simp [UpdateLocalUserEmail, hv, hp, hu]

theorem CreateOAuthUser_invalid (d : Deps U P EP E C) (o : OAuthUserUsecase U EP E σ)
    (now : T) (req : CreateOAuthUserRequest P) (s : σ) (e : E)
    (hv : d.validateCreateOAuthUser req = some e) :
    CreateOAuthUser d o now req s =
      ⟨none, some (d.Upgrade e "CreateOAuthUser request validation failed"
        d.ErrInvalidFormat), [], [], s⟩ := by
  simp [CreateOAuthUser, hv]

theorem CreateOAuthUser_badId (d : Deps U P EP E C) (o : OAuthUserUsecase U EP E σ)
    (now : T) (req : CreateOAuthUserRequest P) (s : σ) (e : E)
    (hv : d.validateCreateOAuthUser req = none)
    (hp : d.uuidParse req.UserId = .error e) :
    CreateOAuthUser d o now req s =
      ⟨none, some (d.Upgrade e "Invalid user ID format" d.ErrInvalidFormat), [], [], s⟩ := by
  simp [CreateOAuthUser, hv, hp]

theorem CreateOAuthUser_badProvider (d : Deps U P EP E C) (o : OAuthUserUsecase U EP E σ)
    (now : T) (req : CreateOAuthUserRequest P) (s : σ) (userID : U) (e : E)
    (hv : d.validateCreateOAuthUser req = none)
    (hp : d.uuidParse req.UserId = .ok userID)
    (hc : d.FromProtoToEnt req.Provider = .error e) :
    CreateOAuthUser d o now req s = ⟨none, some e, [], [], s⟩ := by
  simp [CreateOAuthUser, hv, hp, hc]

theorem CreateOAuthUser_failed (d : Deps U P EP E C) (o : OAuthUserUsecase U EP E σ)
    (now : T) (req : CreateOAuthUserRequest P) (s s' : σ) (userID : U) (entProvider : EP)
    (e : E)
    (hv : d.validateCreateOAuthUser req = none)
    (hp : d.uuidParse req.UserId = .ok userID)
    (hc : d.FromProtoToEnt req.Provider = .ok entProvider)
    (hu : o.CreateOAuthUser userID entProvider req.AccessToken req.Code s = (.error e, s')) :
    CreateOAuthUser d o now req s =
      ⟨none, some e, [.CreateOAuthUser userID entProvider req.AccessToken req.Code], [],
        s'⟩ := by
  simp [CreateOAuthUser, hv, hp, hc, hu]

theorem CreateOAuthUser_done (d : Deps U P EP E C) (o : OAuthUserUsecase U EP E σ)
    (now : T) (req : CreateOAuthUserRequest P) (s s' : σ) (userID : U) (entProvider : EP)
    (createdUser : OAuthAuthUser U)
    (hv : d.validateCreateOAuthUser req = none)
    (hp : d.uuidParse req.UserId = .ok userID)
    (hc : d.FromProtoToEnt req.Provider = .ok entProvider)
    (hu : o.CreateOAuthUser userID entProvider req.AccessToken req.Code s
      = (.ok createdUser, s')) :
    CreateOAuthUser d o now req s =
      ⟨some { UserId := d.uuidString createdUser.UserID, Provider := req.Provider,
              ProviderId := createdUser.ProviderID, Email := createdUser.Email,
              Verified := createdUser.IsVerified, CreatedAt := now }, none,
        [.CreateOAuthUser userID entProvider req.AccessToken req.Code], [], s'⟩ := by
  simp [CreateOAuthUser, hv, hp, hc, hu]

theorem DeleteOAuthUser_invalid (d : Deps U P EP E C) (o : OAuthUserUsecase U EP E σ)
    (now : T) (req : DeleteOAuthUserRequest P) (s : σ) (e : E)
    (hv : d.validateDeleteOAuthUser req = some e) :
    DeleteOAuthUser d o now req s =
      ⟨none, some (d.Upgrade e "DeleteOAuthUser request validation failed"
        d.ErrInvalidFormat), [], [], s⟩ := by
  simp [DeleteOAuthUser, hv]

theorem DeleteOAuthUser_badId (d : Deps U P EP E C) (o : OAuthUserUsecase U EP E σ)
    (now : T) (req : DeleteOAuthUserRequest P) (s : σ) (e : E)
    (hv : d.validateDeleteOAuthUser req = none)
    (hp : d.uuidParse req.UserId = .error e) :
    DeleteOAuthUser d o now req s =
      ⟨none, some (d.Upgrade e "Invalid user ID format" d.ErrInvalidFormat), [], [], s⟩ := by
  simp [DeleteOAuthUser, hv, hp]

theorem DeleteOAuthUser_failed (d : Deps U P EP E C) (o : OAuthUserUsecase U EP E σ)
    (now : T) (req : DeleteOAuthUserRequest P) (s s' : σ) (userID : U) (e : E)
    (hv : d.validateDeleteOAuthUser req = none)
    (hp : d.uuidParse req.UserId = .ok userID)
    (hu : o.DeleteOAuthUser userID s = (some e, s')) :
    DeleteOAuthUser d o now req s = ⟨none, some e, [.DeleteOAuthUser userID], [], s'⟩ := by
  simp [DeleteOAuthUser, hv, hp, hu]

theorem DeleteOAuthUser_done (d : Deps U P EP E C) (o : OAuthUserUsecase U EP E σ)
    (now : T) (req : DeleteOAuthUserRequest P) (s s' : σ) (userID : U)
    (hv : d.validateDeleteOAuthUser req = none)
    (hp : d.uuidParse req.UserId = .ok userID)
    (hu : o.DeleteOAuthUser userID s = (none, s')) :
    DeleteOAuthUser d o now req s =
      ⟨some { UserId := req.UserId, Provider := req.Provider, DeletedAt := now }, none,
        [.DeleteOAuthUser userID], [], s'⟩ := by
  simp [DeleteOAuthUser, hv, hp, hu]

theorem SyncOAuthUser_invalid (d : Deps U P EP E C) (o : OAuthUserUsecase U EP E σ)
    (now : T) (req : SyncOAuthUserRequest P) (s : σ) (e : E)
    (hv : d.validateSyncOAuthUser req = some e) :
    SyncOAuthUser d o now req s =
      ⟨none, some (d.Upgrade e "SyncOAuthUser request validation failed"
        d.ErrInvalidFormat), [], [], s⟩ := by
  simp [SyncOAuthUser, hv]

theorem SyncOAuthUser_badId (d : Deps U P EP E C) (o : OAuthUserUsecase U EP E σ)
    (now : T) (req : SyncOAuthUserRequest P) (s : σ) (e : E)
    (hv : d.validateSyncOAuthUser req = none)
    (hp : d.uuidParse req.UserId = .error e) :
    SyncOAuthUser d o now req s =
      ⟨none, some (d.Upgrade e "Invalid user ID format" d.ErrInvalidFormat), [], [], s⟩ := by
  simp [SyncOAuthUser, hv, hp]

theorem SyncOAuthUser_badProvider (d : Deps U P EP E C) (o : OAuthUserUsecase U EP E σ)
    (now : T) (req : SyncOAuthUserRequest P) (s : σ) (userID : U) (e : E)
    (hv : d.validateSyncOAuthUser req = none)
    (hp : d.uuidParse req.UserId = .ok userID)
    (hc : d.FromProtoToEnt req.Provider = .error e) :
    SyncOAuthUser d o now req s =
      ⟨none, some (d.Upgrade e "Invalid provider format" d.ErrInvalidFormat), [], [], s⟩ := by
  simp [SyncOAuthUser, hv, hp, hc]

theorem SyncOAuthUser_failed (d : Deps U P EP E C) (o : OAuthUserUsecase U EP E σ)
    (now : T) (req : SyncOAuthUserRequest P) (s s' : σ) (userID : U) (entProvider : EP)
    (e : E)
    (hv : d.validateSyncOAuthUser req = none)
    (hp : d.uuidParse req.UserId = .ok userID)
    (hc : d.FromProtoToEnt req.Provider = .ok entProvider)
    (hu : o.SyncOAuthUser userID entProvider req.AccessToken req.Code s = (.error e, s')) :
    SyncOAuthUser d o now req s =
      ⟨none, some e, [.SyncOAuthUser userID entProvider req.AccessToken req.Code], [],
        s'⟩ := by
  simp [SyncOAuthUser, hv, hp, hc, hu]

theorem SyncOAuthUser_done (d : Deps U P EP E C) (o : OAuthUserUsecase U EP E σ)
    (now : T) (req : SyncOAuthUserRequest P) (s s' : σ) (userID : U) (entProvider : EP)
    (updatedUser : OAuthAuthUser U)
    (hv : d.validateSyncOAuthUser req = none)
    (hp : d.uuidParse req.UserId = .ok userID)
    (hc : d.FromProtoToEnt req.Provider = .ok entProvider)
    (hu : o.SyncOAuthUser userID entProvider req.AccessToken req.Code s
      = (.ok updatedUser, s')) :
    SyncOAuthUser d o now req s =
      ⟨some { UserId := d.uuidString updatedUser.UserID, Provider := req.Provider,
              SyncedAt := now }, none,
        [.SyncOAuthUser userID entProvider req.AccessToken req.Code], [], s'⟩ := by
  simp [SyncOAuthUser, hv, hp, hc, hu]

end Paths

/-! ## Rejected requests -/

section Claims

variable {U P EP E C T σ : Type}

/-- C1. In each of the seven handlers, a request whose `Validate` fails with
`e` is answered with a nil response and `Upgrade e "<Operation> request
validation failed" ErrInvalidFormat`, whatever `uuid.Parse` would say about
its user ID; a request that passes `Validate` but whose user ID `uuid.Parse`
rejects with `e` is answered with a nil response and `Upgrade e "Invalid user
ID format" ErrInvalidFormat`. In both cases no usecase operation is called and
the usecase state is unchanged. -/
theorem invalid_request_rejected_before_usecase (d : Deps U P EP E C)
    (l : LocalUserUsecase U E σ) (o : OAuthUserUsecase U EP E σ) (now : T) (s : σ) :
    (∀ req e, d.validateUpdateEmailVerification req = some e →
      (UpdateEmailVerification d l now req s).Returns none
          (some (d.Upgrade e "UpdateEmailVerification request validation failed"
            d.ErrInvalidFormat))
        ∧ (UpdateEmailVerification d l now req s).calls = []
        ∧ (UpdateEmailVerification d l now req s).state = s)
    ∧ (∀ req e, d.validateUpdateEmailVerification req = none →
        d.uuidParse req.UserId = .error e →
      (UpdateEmailVerification d l now req s).Returns none
          (some (d.Upgrade e "Invalid user ID format" d.ErrInvalidFormat))
        ∧ (UpdateEmailVerification d l now req s).calls = []
        ∧ (UpdateEmailVerification d l now req s).state = s)
    ∧ (∀ req e, d.validateCreateLocalUser req = some e →
      (CreateLocalUser d l now req s).Returns none
          (some (d.Upgrade e "CreateLocalUser request validation failed" d.ErrInvalidFormat))
        ∧ (CreateLocalUser d l now req s).calls = []
        ∧ (CreateLocalUser d l now req s).state = s)
    ∧ (∀ req e, d.validateCreateLocalUser req = none → d.uuidParse req.UserId = .error e →
      (CreateLocalUser d l now req s).Returns none
          (some (d.Upgrade e "Invalid user ID format" d.ErrInvalidFormat))
        ∧ (CreateLocalUser d l now req s).calls = []
        ∧ (CreateLocalUser d l now req s).state = s)
    ∧ (∀ req e, d.validateDeleteLocalUser req = some e →
      (DeleteLocalUser d l now req s).Returns none
          (some (d.Upgrade e "DeleteLocalUser request validation failed" d.ErrInvalidFormat))
        ∧ (DeleteLocalUser d l now req s).calls = []
        ∧ (DeleteLocalUser d l now req s).state = s)
    ∧ (∀ req e, d.validateDeleteLocalUser req = none → d.uuidParse req.UserId = .error e →
      (DeleteLocalUser d l now req s).Returns none
          (some (d.Upgrade e "Invalid user ID format" d.ErrInvalidFormat))
        ∧ (DeleteLocalUser d l now req s).calls = []
        ∧ (DeleteLocalUser d l now req s).state = s)
    ∧ (∀ req e, d.validateUpdateLocalUserEmail req = some e →
      (UpdateLocalUserEmail d l now req s).Returns none
          (some (d.Upgrade e "UpdateLocalUserEmail request validation failed"
            d.ErrInvalidFormat))
        ∧ (UpdateLocalUserEmail d l now req s).calls = []
        ∧ (UpdateLocalUserEmail d l now req s).state = s)
    ∧ (∀ req e, d.validateUpdateLocalUserEmail req = none →
        d.uuidParse req.UserId = .error e →
      (UpdateLocalUserEmail d l now req s).Returns none
          (some (d.Upgrade e "Invalid user ID format" d.ErrInvalidFormat))
        ∧ (UpdateLocalUserEmail d l now req s).calls = []
        ∧ (UpdateLocalUserEmail d l now req s).state = s)
    ∧ (∀ req e, d.validateCreateOAuthUser req = some e →
      (CreateOAuthUser d o now req s).Returns none
          (some (d.Upgrade e "CreateOAuthUser request validation failed" d.ErrInvalidFormat))
        ∧ (CreateOAuthUser d o now req s).calls = []
        ∧ (CreateOAuthUser d o now req s).state = s)
    ∧ (∀ req e, d.validateCreateOAuthUser req = none → d.uuidParse req.UserId = .error e →
      (CreateOAuthUser d o now req s).Returns none
          (some (d.Upgrade e "Invalid user ID format" d.ErrInvalidFormat))
        ∧ (CreateOAuthUser d o now req s).calls = []
        ∧ (CreateOAuthUser d o now req s).state = s)
    ∧ (∀ req e, d.validateDeleteOAuthUser req = some e →
      (DeleteOAuthUser d o now req s).Returns none
          (some (d.Upgrade e "DeleteOAuthUser request validation failed" d.ErrInvalidFormat))
        ∧ (DeleteOAuthUser d o now req s).calls = []
        ∧ (DeleteOAuthUser d o now req s).state = s)
    ∧ (∀ req e, d.validateDeleteOAuthUser req = none → d.uuidParse req.UserId = .error e →
      (DeleteOAuthUser d o now req s).Returns none
          (some (d.Upgrade e "Invalid user ID format" d.ErrInvalidFormat))
        ∧ (DeleteOAuthUser d o now req s).calls = []
        ∧ (DeleteOAuthUser d o now req s).state = s)
    ∧ (∀ req e, d.validateSyncOAuthUser req = some e →
      (SyncOAuthUser d o now req s).Returns none
          (some (d.Upgrade e "SyncOAuthUser request validation failed" d.ErrInvalidFormat))
        ∧ (SyncOAuthUser d o now req s).calls = []
        ∧ (SyncOAuthUser d o now req s).state = s)
    ∧ (∀ req e, d.validateSyncOAuthUser req = none → d.uuidParse req.UserId = .error e →
      (SyncOAuthUser d o now req s).Returns none
          (some (d.Upgrade e "Invalid user ID format" d.ErrInvalidFormat))
        ∧ (SyncOAuthUser d o now req s).calls = []
        ∧ (SyncOAuthUser d o now req s).state = s) := by
  refine ⟨?_, ?_, ?_, ?_, ?_, ?_, ?_, ?_, ?_, ?_, ?_, ?_, ?_, ?_⟩
  · intro req e hv
    rw [UpdateEmailVerification_invalid d l now req s e hv]
    exact ⟨⟨rfl, rfl⟩, rfl, rfl⟩
  · intro req e hv hp
    rw [UpdateEmailVerification_badId d l now req s e hv hp]
    exact ⟨⟨rfl, rfl⟩, rfl, rfl⟩
  · intro req e hv
    rw [CreateLocalUser_invalid d l now req s e hv]
    exact ⟨⟨rfl, rfl⟩, rfl, rfl⟩
  · intro req e hv hp
    rw [CreateLocalUser_badId d l now req s e hv hp]
    exact ⟨⟨rfl, rfl⟩, rfl, rfl⟩
  · intro req e hv
    rw [DeleteLocalUser_invalid d l now req s e hv]
    exact ⟨⟨rfl, rfl⟩, rfl, rfl⟩
  · intro req e hv hp
    rw [DeleteLocalUser_badId d l now req s e hv hp]
    exact ⟨⟨rfl, rfl⟩, rfl, rfl⟩
  · intro req e hv
    rw [UpdateLocalUserEmail_invalid d l now req s e hv]
    exact ⟨⟨rfl, rfl⟩, rfl, rfl⟩
  · intro req e hv hp
    rw [UpdateLocalUserEmail_badId d l now req s e hv hp]
    exact ⟨⟨rfl, rfl⟩, rfl, rfl⟩
  · intro req e hv
    rw [CreateOAuthUser_invalid d o now req s e hv]
    exact ⟨⟨rfl, rfl⟩, rfl, rfl⟩
  · intro req e hv hp
    rw [CreateOAuthUser_badId d o now req s e hv hp]
    exact ⟨⟨rfl, rfl⟩, rfl, rfl⟩
  · intro req e hv
    rw [DeleteOAuthUser_invalid d o now req s e hv]
    exact ⟨⟨rfl, rfl⟩, rfl, rfl⟩
  · intro req e hv hp
    rw [DeleteOAuthUser_badId d o now req s e hv hp]
    exact ⟨⟨rfl, rfl⟩, rfl, rfl⟩
  · intro req e hv
    rw [SyncOAuthUser_invalid d o now req s e hv]
    exact ⟨⟨rfl, rfl⟩, rfl, rfl⟩
  · intro req e hv hp
    rw [SyncOAuthUser_badId d o now req s e hv hp]
    exact ⟨⟨rfl, rfl⟩, rfl, rfl⟩

/-- C1 at a concrete input: a `CreateLocalUser` request with an empty user ID
fails both `Validate` and `uuid.Parse` in the example instance and gets the
validation error, with no usecase call. -/
theorem invalid_request_rejected_before_usecase_witness :
    Example.deps.validateCreateLocalUser ⟨"", "a@example.com", "password1"⟩
        = some (.raw "invalid UserId: value is required")
      ∧ Example.deps.uuidParse "" = .error (.raw "invalid UUID length")
      ∧ (CreateLocalUser Example.deps Example.localUsecase (0 : Nat)
            ⟨"", "a@example.com", "password1"⟩ Example.emptyStore).Returns none
          (some (.upgraded (.raw "invalid UserId: value is required")
            "CreateLocalUser request validation failed" .ErrInvalidFormat))
      ∧ (CreateLocalUser Example.deps Example.localUsecase (0 : Nat)
            ⟨"", "a@example.com", "password1"⟩ Example.emptyStore).calls = []
      ∧ (CreateLocalUser Example.deps Example.localUsecase (0 : Nat)
            ⟨"", "a@example.com", "password1"⟩ Example.emptyStore).state
          = Example.emptyStore :=
  ⟨rfl, rfl,
    (invalid_request_rejected_before_usecase Example.deps Example.localUsecase
      Example.oauthUsecase (0 : Nat) Example.emptyStore).2.2.1
      ⟨"", "a@example.com", "password1"⟩ _ rfl⟩

/-! ## Usecase errors -/

/-- C2. In each of the seven handlers, when the request passes `Validate`, its
user ID parses, the provider converts (`CreateOAuthUser`, `SyncOAuthUser`) and
the usecase operation returns the error `e`, the handler returns a nil
response together with exactly `e`. -/
theorem usecase_error_returned_unchanged (d : Deps U P EP E C)
    (l : LocalUserUsecase U E σ) (o : OAuthUserUsecase U EP E σ) (now : T) (s : σ) :
    (∀ req userID e s', d.validateUpdateEmailVerification req = none →
        d.uuidParse req.UserId = .ok userID →
        l.UpdateLocalEmailVerificationStatus userID req.Verified s = (some e, s') →
      (UpdateEmailVerification d l now req s).Returns none (some e))
    ∧ (∀ req userID e s', d.validateCreateLocalUser req = none →
        d.uuidParse req.UserId = .ok userID →
        l.CreateLocalAuthUser userID req.Email req.Password s = (.error e, s') →
      (CreateLocalUser d l now req s).Returns none (some e))
    ∧ (∀ req userID e s', d.validateDeleteLocalUser req = none →
        d.uuidParse req.UserId = .ok userID →
        l.DeleteAuthUser userID s = (some e, s') →
      (DeleteLocalUser d l now req s).Returns none (some e))
    ∧ (∀ req userID e s', d.validateUpdateLocalUserEmail req = none →
        d.uuidParse req.UserId = .ok userID →
        l.UpdateAuthUserEmail userID req.NewEmail s = (.error e, s') →
      (UpdateLocalUserEmail d l now req s).Returns none (some e))
    ∧ (∀ req userID entProvider e s', d.validateCreateOAuthUser req = none →
        d.uuidParse req.UserId = .ok userID →
        d.FromProtoToEnt req.Provider = .ok entProvider →
        o.CreateOAuthUser userID entProvider req.AccessToken req.Code s = (.error e, s') →
      (CreateOAuthUser d o now req s).Returns none (some e))
    ∧ (∀ req userID e s', d.validateDeleteOAuthUser req = none →
        d.uuidParse req.UserId = .ok userID →
        o.DeleteOAuthUser userID s = (some e, s') →
      (DeleteOAuthUser d o now req s).Returns none (some e))
    ∧ (∀ req userID entProvider e s', d.validateSyncOAuthUser req = none →
        d.uuidParse req.UserId = .ok userID →
        d.FromProtoToEnt req.Provider = .ok entProvider →
        o.SyncOAuthUser userID entProvider req.AccessToken req.Code s = (.error e, s') →
      (SyncOAuthUser d o now req s).Returns none (some e)) := by
  refine ⟨?_, ?_, ?_, ?_, ?_, ?_, ?_⟩
  · intro req userID e s' hv hp hu
    rw [UpdateEmailVerification_failed d l now req s s' userID e hv hp hu]
    exact ⟨rfl, rfl⟩
  · intro req userID e s' hv hp hu
    rw [CreateLocalUser_failed d l now req s s' userID e hv hp hu]
    exact ⟨rfl, rfl⟩
  · intro req userID e s' hv hp hu
    rw [DeleteLocalUser_failed d l now req s s' userID e hv hp hu]
    exact ⟨rfl, rfl⟩
  · intro req userID e s' hv hp hu
    rw [UpdateLocalUserEmail_failed d l now req s s' userID e hv hp hu]
    exact ⟨rfl, rfl⟩
  · intro req userID entProvider e s' hv hp hc hu
    rw [CreateOAuthUser_failed d o now req s s' userID entProvider e hv hp hc hu]
    exact ⟨rfl, rfl⟩
  · intro req userID e s' hv hp hu
    rw [DeleteOAuthUser_failed d o now req s s' userID e hv hp hu]
    exact ⟨rfl, rfl⟩
  · intro req userID entProvider e s' hv hp hc hu
    rw [SyncOAuthUser_failed d o now req s s' userID entProvider e hv hp hc hu]
    exact ⟨rfl, rfl⟩

/-- C2 at a concrete input: deleting a local user from the empty example store
hands the usecase's not-found error to the caller as it is. -/
theorem usecase_error_returned_unchanged_witness :
    Example.deps.validateDeleteLocalUser ⟨Example.lowerId⟩ = none
      ∧ Example.deps.uuidParse Example.lowerId = .ok Example.theId
      ∧ Example.localUsecase.DeleteAuthUser Example.theId Example.emptyStore
          = (some (.coded .ErrNotFound "local user not found"), Example.emptyStore)
      ∧ (DeleteLocalUser Example.deps Example.localUsecase (0 : Nat) ⟨Example.lowerId⟩
            Example.emptyStore).Returns none
          (some (.coded .ErrNotFound "local user not found")) :=
  ⟨rfl, rfl, rfl,
    (usecase_error_returned_unchanged Example.deps Example.localUsecase
      Example.oauthUsecase (0 : Nat) Example.emptyStore).2.2.1
      ⟨Example.lowerId⟩ Example.theId _ Example.emptyStore rfl rfl rfl⟩

/-! ## Shape of the result -/

theorem UpdateEmailVerification_shape (d : Deps U P EP E C) (l : LocalUserUsecase U E σ)
    (now : T) (req : UpdateEmailVerificationRequest) (s : σ) :
    (UpdateEmailVerification d l now req s).ExactlyOne
      ∧ ((UpdateEmailVerification d l now req s).resp.isSome = true ↔
          d.validateUpdateEmailVerification req = none
            ∧ ∃ userID, d.uuidParse req.UserId = .ok userID
              ∧ (l.UpdateLocalEmailVerificationStatus userID req.Verified s).1 = none) := by
  unfold UpdateEmailVerification Outcome.ExactlyOne
  split <;> try split
  all_goals try split
  all_goals simp_all

theorem CreateLocalUser_shape (d : Deps U P EP E C) (l : LocalUserUsecase U E σ)
    (now : T) (req : CreateLocalUserRequest) (s : σ) :
    (CreateLocalUser d l now req s).ExactlyOne
      ∧ ((CreateLocalUser d l now req s).resp.isSome = true ↔
          d.validateCreateLocalUser req = none
            ∧ ∃ userID, d.uuidParse req.UserId = .ok userID
              ∧ ∃ createdUser,
                (l.CreateLocalAuthUser userID req.Email req.Password s).1
                  = .ok createdUser) := by
  unfold CreateLocalUser Outcome.ExactlyOne
  split <;> try split
  all_goals try split
  all_goals simp_all

theorem DeleteLocalUser_shape (d : Deps U P EP E C) (l : LocalUserUsecase U E σ)
    (now : T) (req : DeleteLocalUserRequest) (s : σ) :
    (DeleteLocalUser d l now req s).ExactlyOne
      ∧ ((DeleteLocalUser d l now req s).resp.isSome = true ↔
          d.validateDeleteLocalUser req = none
            ∧ ∃ userID, d.uuidParse req.UserId = .ok userID
              ∧ (l.DeleteAuthUser userID s).1 = none) := by
  unfold DeleteLocalUser Outcome.ExactlyOne
  split <;> try split
  all_goals try split
  all_goals simp_all

theorem UpdateLocalUserEmail_shape (d : Deps U P EP E C) (l : LocalUserUsecase U E σ)
    (now : T) (req : UpdateLocalUserEmailRequest) (s : σ) :
    (UpdateLocalUserEmail d l now req s).ExactlyOne
      ∧ ((UpdateLocalUserEmail d l now req s).resp.isSome = true ↔
          d.validateUpdateLocalUserEmail req = none
            ∧ ∃ userID, d.uuidParse req.UserId = .ok userID
              ∧ ∃ updatedUser,
                (l.UpdateAuthUserEmail userID req.NewEmail s).1 = .ok updatedUser) := by
  unfold UpdateLocalUserEmail Outcome.ExactlyOne
  split <;> try split
  all_goals try split
  all_goals simp_all

theorem CreateOAuthUser_shape (d : Deps U P EP E C) (o : OAuthUserUsecase U EP E σ)
    (now : T) (req : CreateOAuthUserRequest P) (s : σ) :
    (CreateOAuthUser d o now req s).ExactlyOne
      ∧ ((CreateOAuthUser d o now req s).resp.isSome = true ↔
          d.validateCreateOAuthUser req = none
            ∧ ∃ userID, d.uuidParse req.UserId = .ok userID
              ∧ ∃ entProvider, d.FromProtoToEnt req.Provider = .ok entProvider
                ∧ ∃ createdUser,
                  (o.CreateOAuthUser userID entProvider req.AccessToken req.Code s).1
                    = .ok createdUser) := by
  unfold CreateOAuthUser Outcome.ExactlyOne
  split <;> try split
  all_goals try split
  all_goals try split
  all_goals simp_all

theorem DeleteOAuthUser_shape (d : Deps U P EP E C) (o : OAuthUserUsecase U EP E σ)
    (now : T) (req : DeleteOAuthUserRequest P) (s : σ) :
    (DeleteOAuthUser d o now req s).ExactlyOne
      ∧ ((DeleteOAuthUser d o now req s).resp.isSome = true ↔
          d.validateDeleteOAuthUser req = none
            ∧ ∃ userID, d.uuidParse req.UserId = .ok userID
              ∧ (o.DeleteOAuthUser userID s).1 = none) := by
  unfold DeleteOAuthUser Outcome.ExactlyOne
  split <;> try split
  all_goals try split
  all_goals simp_all

theorem SyncOAuthUser_shape (d : Deps U P EP E C) (o : OAuthUserUsecase U EP E σ)
    (now : T) (req : SyncOAuthUserRequest P) (s : σ) :
    (SyncOAuthUser d o now req s).ExactlyOne
      ∧ ((SyncOAuthUser d o now req s).resp.isSome = true ↔
          d.validateSyncOAuthUser req = none
            ∧ ∃ userID, d.uuidParse req.UserId = .ok userID
              ∧ ∃ entProvider, d.FromProtoToEnt req.Provider = .ok entProvider
                ∧ ∃ updatedUser,
                  (o.SyncOAuthUser userID entProvider req.AccessToken req.Code s).1
                    = .ok updatedUser) := by
  unfold SyncOAuthUser Outcome.ExactlyOne
  split <;> try split
  all_goals try split
  all_goals try split
  all_goals simp_all

/-- C4. Every handler returns either a response with a nil error or a nil
response with an error, never both and never neither; and the response is
non-nil exactly when `Validate` passes, `uuid.Parse` succeeds, the provider
converts (`CreateOAuthUser` and `SyncOAuthUser` only) and the usecase
operation returns no error. -/
theorem response_xor_error (d : Deps U P EP E C) (l : LocalUserUsecase U E σ)
    (o : OAuthUserUsecase U EP E σ) (now : T) (s : σ) :
    (∀ req : UpdateEmailVerificationRequest,
      (UpdateEmailVerification d l now req s).ExactlyOne
        ∧ ((UpdateEmailVerification d l now req s).resp.isSome = true ↔
            d.validateUpdateEmailVerification req = none
              ∧ ∃ userID, d.uuidParse req.UserId = .ok userID
                ∧ (l.UpdateLocalEmailVerificationStatus userID req.Verified s).1 = none))
    ∧ (∀ req : CreateLocalUserRequest,
      (CreateLocalUser d l now req s).ExactlyOne
        ∧ ((CreateLocalUser d l now req s).resp.isSome = true ↔
            d.validateCreateLocalUser req = none
              ∧ ∃ userID, d.uuidParse req.UserId = .ok userID
                ∧ ∃ createdUser,
                  (l.CreateLocalAuthUser userID req.Email req.Password s).1
                    = .ok createdUser))
    ∧ (∀ req : DeleteLocalUserRequest,
      (DeleteLocalUser d l now req s).ExactlyOne
        ∧ ((DeleteLocalUser d l now req s).resp.isSome = true ↔
            d.validateDeleteLocalUser req = none
              ∧ ∃ userID, d.uuidParse req.UserId = .ok userID
                ∧ (l.DeleteAuthUser userID s).1 = none))
    ∧ (∀ req : UpdateLocalUserEmailRequest,
      (UpdateLocalUserEmail d l now req s).ExactlyOne
        ∧ ((UpdateLocalUserEmail d l now req s).resp.isSome = true ↔
            d.validateUpdateLocalUserEmail req = none
              ∧ ∃ userID, d.uuidParse req.UserId = .ok userID
                ∧ ∃ updatedUser,
                  (l.UpdateAuthUserEmail userID req.NewEmail s).1 = .ok updatedUser))
    ∧ (∀ req : CreateOAuthUserRequest P,
      (CreateOAuthUser d o now req s).ExactlyOne
        ∧ ((CreateOAuthUser d o now req s).resp.isSome = true ↔
            d.validateCreateOAuthUser req = none
              ∧ ∃ userID, d.uuidParse req.UserId = .ok userID
                ∧ ∃ entProvider, d.FromProtoToEnt req.Provider = .ok entProvider
                  ∧ ∃ createdUser,
                    (o.CreateOAuthUser userID entProvider req.AccessToken req.Code s).1
                      = .ok createdUser))
    ∧ (∀ req : DeleteOAuthUserRequest P,
      (DeleteOAuthUser d o now req s).ExactlyOne
        ∧ ((DeleteOAuthUser d o now req s).resp.isSome = true ↔
            d.validateDeleteOAuthUser req = none
              ∧ ∃ userID, d.uuidParse req.UserId = .ok userID
                ∧ (o.DeleteOAuthUser userID s).1 = none))
    ∧ (∀ req : SyncOAuthUserRequest P,
      (SyncOAuthUser d o now req s).ExactlyOne
        ∧ ((SyncOAuthUser d o now req s).resp.isSome = true ↔
            d.validateSyncOAuthUser req = none
              ∧ ∃ userID, d.uuidParse req.UserId = .ok userID
                ∧ ∃ entProvider, d.FromProtoToEnt req.Provider = .ok entProvider
                  ∧ ∃ updatedUser,
                    (o.SyncOAuthUser userID entProvider req.AccessToken req.Code s).1
                      = .ok updatedUser)) :=
  ⟨fun req => UpdateEmailVerification_shape d l now req s,
    fun req => CreateLocalUser_shape d l now req s,
    fun req => DeleteLocalUser_shape d l now req s,
    fun req => UpdateLocalUserEmail_shape d l now req s,
    fun req => CreateOAuthUser_shape d o now req s,
    fun req => DeleteOAuthUser_shape d o now req s,
    fun req => SyncOAuthUser_shape d o now req s⟩

/-! ## Responses -/

/-- C5. On success the response is built from the record the usecase returned:
`CreateOAuthUser` answers with the record's user ID (as `UUID.String`),
provider ID, email and verified flag, and takes only `Provider` from the
request; `UpdateLocalUserEmail` answers with the record's user ID and the
record's email; `CreateLocalUser` and `SyncOAuthUser` answer with the record's
user ID. -/
theorem response_built_from_record (d : Deps U P EP E C) (l : LocalUserUsecase U E σ)
    (o : OAuthUserUsecase U EP E σ) (now : T) (s : σ) :
    (∀ req userID entProvider createdUser s', d.validateCreateOAuthUser req = none →
        d.uuidParse req.UserId = .ok userID →
        d.FromProtoToEnt req.Provider = .ok entProvider →
        o.CreateOAuthUser userID entProvider req.AccessToken req.Code s
          = (.ok createdUser, s') →
      (CreateOAuthUser d o now req s).Returns
        (some { UserId := d.uuidString createdUser.UserID, Provider := req.Provider,
                ProviderId := createdUser.ProviderID, Email := createdUser.Email,
                Verified := createdUser.IsVerified, CreatedAt := now }) none)
    ∧ (∀ req userID updatedUser s', d.validateUpdateLocalUserEmail req = none →
        d.uuidParse req.UserId = .ok userID →
        l.UpdateAuthUserEmail userID req.NewEmail s = (.ok updatedUser, s') →
      (UpdateLocalUserEmail d l now req s).Returns
        (some { UserId := d.uuidString updatedUser.UserID,
                UpdatedEmail := updatedUser.Email, UpdatedAt := now }) none)
    ∧ (∀ req userID createdUser s', d.validateCreateLocalUser req = none →
        d.uuidParse req.UserId = .ok userID →
        l.CreateLocalAuthUser userID req.Email req.Password s = (.ok createdUser, s') →
      (CreateLocalUser d l now req s).Returns
        (some { UserId := d.uuidString createdUser.UserID, CreatedAt := now }) none)
    ∧ (∀ req userID entProvider updatedUser s', d.validateSyncOAuthUser req = none →
        d.uuidParse req.UserId = .ok userID →
        d.FromProtoToEnt req.Provider = .ok entProvider →
        o.SyncOAuthUser userID entProvider req.AccessToken req.Code s
          = (.ok updatedUser, s') →
      (SyncOAuthUser d o now req s).Returns
        (some { UserId := d.uuidString updatedUser.UserID, Provider := req.Provider,
                SyncedAt := now }) none) := by
  refine ⟨?_, ?_, ?_, ?_⟩
  · intro req userID entProvider createdUser s' hv hp hc hu
    rw [CreateOAuthUser_done d o now req s s' userID entProvider createdUser hv hp hc hu]
    exact ⟨rfl, rfl⟩
  · intro req userID updatedUser s' hv hp hu
    rw [UpdateLocalUserEmail_done d l now req s s' userID updatedUser hv hp hu]
    exact ⟨rfl, rfl⟩
  · intro req userID createdUser s' hv hp hu
    rw [CreateLocalUser_done d l now req s s' userID createdUser hv hp hu]
    exact ⟨rfl, rfl⟩
  · intro req userID entProvider updatedUser s' hv hp hc hu
    rw [SyncOAuthUser_done d o now req s s' userID entProvider updatedUser hv hp hc hu]
    exact ⟨rfl, rfl⟩

/-- C5 at a concrete input: the example usecase stores emails in lower case, and
`UpdateLocalUserEmail` answers with the stored `me@example.com`, not with the
requested `Me@Example.COM`; the user ID comes back in canonical form. -/
theorem response_built_from_record_witness :
    Example.deps.validateUpdateLocalUserEmail ⟨Example.upperId, "Me@Example.COM"⟩ = none
      ∧ Example.deps.uuidParse Example.upperId = .ok Example.theId
      ∧ (Example.localUsecase.UpdateAuthUserEmail Example.theId "Me@Example.COM"
            Example.oneUserStore).1 = .ok ⟨Example.theId, "me@example.com"⟩
      ∧ (UpdateLocalUserEmail Example.deps Example.localUsecase (7 : Nat)
            ⟨Example.upperId, "Me@Example.COM"⟩ Example.oneUserStore).Returns
          (some { UserId := "a3bb189e-8bf9-3888-9912-ace4e6543002",
                  UpdatedEmail := "me@example.com", UpdatedAt := 7 }) none :=
  ⟨rfl, rfl, rfl,
    (response_built_from_record Example.deps Example.localUsecase Example.oauthUsecase
      (7 : Nat) Example.oneUserStore).2.1
      ⟨Example.upperId, "Me@Example.COM"⟩ Example.theId ⟨Example.theId, "me@example.com"⟩
      _ rfl rfl rfl⟩

/-! ## Usecase calls -/

theorem CreateOAuthUser_call (d : Deps U P EP E C) (o : OAuthUserUsecase U EP E σ)
    (now : T) (req : CreateOAuthUserRequest P) (s : σ) (userID : U) (entProvider : EP)
    (hv : d.validateCreateOAuthUser req = none)
    (hp : d.uuidParse req.UserId = .ok userID)
    (hc : d.FromProtoToEnt req.Provider = .ok entProvider) :
    (CreateOAuthUser d o now req s).calls
        = [.CreateOAuthUser userID entProvider req.AccessToken req.Code]
      ∧ (CreateOAuthUser d o now req s).state
        = (o.CreateOAuthUser userID entProvider req.AccessToken req.Code s).2
      ∧ ((CreateOAuthUser d o now req s).err = none ↔
          ∃ createdUser,
            (o.CreateOAuthUser userID entProvider req.AccessToken req.Code s).1
              = .ok createdUser) := by
  unfold CreateOAuthUser
  simp only [hv, hp, hc]
  split <;> simp_all

theorem SyncOAuthUser_call (d : Deps U P EP E C) (o : OAuthUserUsecase U EP E σ)
    (now : T) (req : SyncOAuthUserRequest P) (s : σ) (userID : U) (entProvider : EP)
    (hv : d.validateSyncOAuthUser req = none)
    (hp : d.uuidParse req.UserId = .ok userID)
    (hc : d.FromProtoToEnt req.Provider = .ok entProvider) :
    (SyncOAuthUser d o now req s).calls
        = [.SyncOAuthUser userID entProvider req.AccessToken req.Code]
      ∧ (SyncOAuthUser d o now req s).state
        = (o.SyncOAuthUser userID entProvider req.AccessToken req.Code s).2
      ∧ ((SyncOAuthUser d o now req s).err = none ↔
          ∃ updatedUser,
            (o.SyncOAuthUser userID entProvider req.AccessToken req.Code s).1
              = .ok updatedUser) := by
  unfold SyncOAuthUser
  simp only [hv, hp, hc]
  split <;> simp_all

/-- C6. A `CreateOAuthUser` or `SyncOAuthUser` request that passes `Validate`,
user-ID parsing and provider conversion reaches the usecase as one call with
the parsed user ID, the converted provider, `req.AccessToken` and `req.Code`,
both exactly as they came, whatever they hold; the handler fails only if that
usecase call does. -/
theorem oauth_credentials_forwarded (d : Deps U P EP E C) (o : OAuthUserUsecase U EP E σ)
    (now : T) (s : σ) :
    (∀ req userID entProvider, d.validateCreateOAuthUser req = none →
        d.uuidParse req.UserId = .ok userID →
        d.FromProtoToEnt req.Provider = .ok entProvider →
      (CreateOAuthUser d o now req s).calls
          = [.CreateOAuthUser userID entProvider req.AccessToken req.Code]
        ∧ (CreateOAuthUser d o now req s).state
          = (o.CreateOAuthUser userID entProvider req.AccessToken req.Code s).2
        ∧ ((CreateOAuthUser d o now req s).err = none ↔
            ∃ createdUser,
              (o.CreateOAuthUser userID entProvider req.AccessToken req.Code s).1
                = .ok createdUser))
    ∧ (∀ req userID entProvider, d.validateSyncOAuthUser req = none →
        d.uuidParse req.UserId = .ok userID →
        d.FromProtoToEnt req.Provider = .ok entProvider →
      (SyncOAuthUser d o now req s).calls
          = [.SyncOAuthUser userID entProvider req.AccessToken req.Code]
        ∧ (SyncOAuthUser d o now req s).state
          = (o.SyncOAuthUser userID entProvider req.AccessToken req.Code s).2
        ∧ ((SyncOAuthUser d o now req s).err = none ↔
            ∃ updatedUser,
              (o.SyncOAuthUser userID entProvider req.AccessToken req.Code s).1
                = .ok updatedUser)) :=
  ⟨fun req userID entProvider hv hp hc => CreateOAuthUser_call d o now req s userID
      entProvider hv hp hc,
    fun req userID entProvider hv hp hc => SyncOAuthUser_call d o now req s userID
      entProvider hv hp hc⟩

/-- C6 at a concrete input: a `CreateOAuthUser` request carrying both an access
token and a code is not rejected by the handler, and both reach the usecase. -/
theorem oauth_credentials_forwarded_witness :
    Example.deps.validateCreateOAuthUser ⟨Example.lowerId, .GOOGLE, "tok-1", "code-2"⟩ = none
      ∧ Example.deps.uuidParse Example.lowerId = .ok Example.theId
      ∧ Example.deps.FromProtoToEnt Example.Provider.GOOGLE = .ok .google
      ∧ (CreateOAuthUser Example.deps Example.oauthUsecase (0 : Nat)
            ⟨Example.lowerId, .GOOGLE, "tok-1", "code-2"⟩ Example.emptyStore).calls
          = [.CreateOAuthUser Example.theId .google "tok-1" "code-2"]
      ∧ (CreateOAuthUser Example.deps Example.oauthUsecase (0 : Nat)
            ⟨Example.lowerId, .GOOGLE, "tok-1", "code-2"⟩ Example.emptyStore).err = none :=
  ⟨rfl, rfl, rfl,
    ((oauth_credentials_forwarded Example.deps Example.oauthUsecase (0 : Nat)
      Example.emptyStore).1 ⟨Example.lowerId, .GOOGLE, "tok-1", "code-2"⟩ Example.theId
      .google rfl rfl rfl).1,
    rfl⟩

/-! ## Deleting an OAuth user -/

theorem DeleteOAuthUser_same_id (d : Deps U P EP E C) (o : OAuthUserUsecase U EP E σ)
    (now : T) (r₁ r₂ : DeleteOAuthUserRequest P) (s : σ)
    (hid : r₁.UserId = r₂.UserId)
    (hv₁ : d.validateDeleteOAuthUser r₁ = none) (hv₂ : d.validateDeleteOAuthUser r₂ = none) :
    (DeleteOAuthUser d o now r₁ s).calls = (DeleteOAuthUser d o now r₂ s).calls
      ∧ (DeleteOAuthUser d o now r₁ s).err = (DeleteOAuthUser d o now r₂ s).err
      ∧ (DeleteOAuthUser d o now r₁ s).state = (DeleteOAuthUser d o now r₂ s).state := by
  unfold DeleteOAuthUser
  simp only [hv₁, hv₂, hid]
  split
  · simp
  · split <;> simp

/-- C7. `DeleteOAuthUser` deletes by user ID alone. Two requests that pass
`Validate` and carry the same `UserId` make the same usecase calls, get the
same error and leave the same usecase state, whatever their `Provider`
values. The handler does not depend on `util.FromProtoToEnt` at all: replacing
it by any other conversion `f` changes nothing. When the request passes
`Validate`, its user ID parses to `userID` and the usecase deletes without
error, the one call made is `DeleteOAuthUser userID` and the response reports
`UserId = req.UserId` and `Provider = req.Provider`, also for a provider the
conversion rejects. -/
theorem delete_oauth_by_user_id_alone (d : Deps U P EP E C) (o : OAuthUserUsecase U EP E σ)
    (now : T) (s : σ) :
    (∀ r₁ r₂ : DeleteOAuthUserRequest P, r₁.UserId = r₂.UserId →
        d.validateDeleteOAuthUser r₁ = none → d.validateDeleteOAuthUser r₂ = none →
      (DeleteOAuthUser d o now r₁ s).calls = (DeleteOAuthUser d o now r₂ s).calls
        ∧ (DeleteOAuthUser d o now r₁ s).err = (DeleteOAuthUser d o now r₂ s).err
        ∧ (DeleteOAuthUser d o now r₁ s).state = (DeleteOAuthUser d o now r₂ s).state)
    ∧ (∀ (f : P → Except E EP) (req : DeleteOAuthUserRequest P),
      DeleteOAuthUser { d with FromProtoToEnt := f } o now req s
        = DeleteOAuthUser d o now req s)
    ∧ (∀ req userID s', d.validateDeleteOAuthUser req = none →
        d.uuidParse req.UserId = .ok userID →
        o.DeleteOAuthUser userID s = (none, s') →
      (DeleteOAuthUser d o now req s).calls = [.DeleteOAuthUser userID]
        ∧ (DeleteOAuthUser d o now req s).Returns
          (some { UserId := req.UserId, Provider := req.Provider, DeletedAt := now })
          none) := by
  refine ⟨?_, ?_, ?_⟩
  · intro r₁ r₂ hid hv₁ hv₂
    exact DeleteOAuthUser_same_id d o now r₁ r₂ s hid hv₁ hv₂
  · intro f req
    rfl
  · intro req userID s' hv hp hu
    rw [DeleteOAuthUser_done d o now req s s' userID hv hp hu]
    exact ⟨rfl, rfl, rfl⟩

/-- C7 at a concrete input: a delete request naming the unspecified provider,
which the example conversion rejects, still deletes the user's identities and
reports that provider back. -/
theorem delete_oauth_by_user_id_alone_witness :
    Example.deps.validateDeleteOAuthUser ⟨Example.lowerId, .UNSPECIFIED⟩ = none
      ∧ Example.deps.uuidParse Example.lowerId = .ok Example.theId
      ∧ Example.deps.FromProtoToEnt Example.Provider.UNSPECIFIED
          = .error (.raw "unsupported provider")
      ∧ Example.oauthUsecase.DeleteOAuthUser Example.theId Example.oneUserStore
          = (none, ⟨[⟨Example.theId, "old@example.com"⟩], []⟩)
      ∧ (DeleteOAuthUser Example.deps Example.oauthUsecase (3 : Nat)
            ⟨Example.lowerId, .UNSPECIFIED⟩ Example.oneUserStore).calls
          = [.DeleteOAuthUser Example.theId]
      ∧ (DeleteOAuthUser Example.deps Example.oauthUsecase (3 : Nat)
            ⟨Example.lowerId, .UNSPECIFIED⟩ Example.oneUserStore).Returns
          (some { UserId := Example.lowerId, Provider := .UNSPECIFIED, DeletedAt := 3 })
          none :=
  ⟨rfl, rfl, rfl, rfl,
    (delete_oauth_by_user_id_alone Example.deps Example.oauthUsecase (3 : Nat)
      Example.oneUserStore).2.2 ⟨Example.lowerId, .UNSPECIFIED⟩ Example.theId
      ⟨[⟨Example.theId, "old@example.com"⟩], []⟩ rfl rfl rfl⟩

/-! ## How the usecase is used -/

theorem UpdateEmailVerification_run (d : Deps U P EP E C) (l : LocalUserUsecase U E σ)
    (now : T) (req : UpdateEmailVerificationRequest) (s : σ) :
    ((UpdateEmailVerification d l now req s).calls = [] ∧ (UpdateEmailVerification d l now req s).state = s)
      ∨ ∃ userID, d.uuidParse req.UserId = .ok userID
        ∧ (UpdateEmailVerification d l now req s).calls = [.UpdateLocalEmailVerificationStatus userID req.Verified]
        ∧ (UpdateEmailVerification d l now req s).state = (l.UpdateLocalEmailVerificationStatus userID req.Verified s).2
        ∧ (UpdateEmailVerification d l now req s).err = (l.UpdateLocalEmailVerificationStatus userID req.Verified s).1 := by
  unfold UpdateEmailVerification
  split
  · left; simp
  · split
    · left; simp
    · right
      refine ⟨_, ‹_›, ?_⟩
      split <;> simp_all [errOf]

theorem UpdateEmailVerification_run_accepted (d : Deps U P EP E C) (l : LocalUserUsecase U E σ)
    (now : T) (req : UpdateEmailVerificationRequest) (s : σ) (userID : U)
    (hv : d.validateUpdateEmailVerification req = none)
    (hp : d.uuidParse req.UserId = .ok userID) :
    (UpdateEmailVerification d l now req s).calls = [.UpdateLocalEmailVerificationStatus userID req.Verified]
      ∧ (UpdateEmailVerification d l now req s).state = (l.UpdateLocalEmailVerificationStatus userID req.Verified s).2
      ∧ (UpdateEmailVerification d l now req s).err = (l.UpdateLocalEmailVerificationStatus userID req.Verified s).1 := by
  unfold UpdateEmailVerification
  simp only [hv, hp]
  split <;> simp_all [errOf]

theorem UpdateEmailVerification_only_own (d : Deps U P EP E C) (l l₂ : LocalUserUsecase U E σ)
    (now : T) (req : UpdateEmailVerificationRequest) (s : σ)
    (h : l₂.UpdateLocalEmailVerificationStatus = l.UpdateLocalEmailVerificationStatus) :
    UpdateEmailVerification d l₂ now req s = UpdateEmailVerification d l now req s := by
  unfold UpdateEmailVerification
  rw [h]

theorem CreateLocalUser_run (d : Deps U P EP E C) (l : LocalUserUsecase U E σ)
    (now : T) (req : CreateLocalUserRequest) (s : σ) :
    ((CreateLocalUser d l now req s).calls = [] ∧ (CreateLocalUser d l now req s).state = s)
      ∨ ∃ userID, d.uuidParse req.UserId = .ok userID
        ∧ (CreateLocalUser d l now req s).calls = [.CreateLocalAuthUser userID req.Email req.Password]
        ∧ (CreateLocalUser d l now req s).state = (l.CreateLocalAuthUser userID req.Email req.Password s).2
        ∧ (CreateLocalUser d l now req s).err = errOf (l.CreateLocalAuthUser userID req.Email req.Password s).1 := by
  unfold CreateLocalUser
  split
  · left; simp
  · split
    · left; simp
    · right
      refine ⟨_, ‹_›, ?_⟩
      split <;> simp_all [errOf]

theorem CreateLocalUser_run_accepted (d : Deps U P EP E C) (l : LocalUserUsecase U E σ)
    (now : T) (req : CreateLocalUserRequest) (s : σ) (userID : U)
    (hv : d.validateCreateLocalUser req = none)
    (hp : d.uuidParse req.UserId = .ok userID) :
    (CreateLocalUser d l now req s).calls = [.CreateLocalAuthUser userID req.Email req.Password]
      ∧ (CreateLocalUser d l now req s).state = (l.CreateLocalAuthUser userID req.Email req.Password s).2
      ∧ (CreateLocalUser d l now req s).err = errOf (l.CreateLocalAuthUser userID req.Email req.Password s).1 := by
  unfold CreateLocalUser
  simp only [hv, hp]
  split <;> simp_all [errOf]

theorem CreateLocalUser_only_own (d : Deps U P EP E C) (l l₂ : LocalUserUsecase U E σ)
    (now : T) (req : CreateLocalUserRequest) (s : σ)
    (h : l₂.CreateLocalAuthUser = l.CreateLocalAuthUser) :
    CreateLocalUser d l₂ now req s = CreateLocalUser d l now req s := by
  unfold CreateLocalUser
  rw [h]

theorem DeleteLocalUser_run (d : Deps U P EP E C) (l : LocalUserUsecase U E σ)
    (now : T) (req : DeleteLocalUserRequest) (s : σ) :
    ((DeleteLocalUser d l now req s).calls = [] ∧ (DeleteLocalUser d l now req s).state = s)
      ∨ ∃ userID, d.uuidParse req.UserId = .ok userID
        ∧ (DeleteLocalUser d l now req s).calls = [.DeleteAuthUser userID]
        ∧ (DeleteLocalUser d l now req s).state = (l.DeleteAuthUser userID s).2
        ∧ (DeleteLocalUser d l now req s).err = (l.DeleteAuthUser userID s).1 := by
  unfold DeleteLocalUser
  split
  · left; simp
  · split
    · left; simp
    · right
      refine ⟨_, ‹_›, ?_⟩
      split <;> simp_all [errOf]

theorem DeleteLocalUser_run_accepted (d : Deps U P EP E C) (l : LocalUserUsecase U E σ)
    (now : T) (req : DeleteLocalUserRequest) (s : σ) (userID : U)
    (hv : d.validateDeleteLocalUser req = none)
    (hp : d.uuidParse req.UserId = .ok userID) :
    (DeleteLocalUser d l now req s).calls = [.DeleteAuthUser userID]
      ∧ (DeleteLocalUser d l now req s).state = (l.DeleteAuthUser userID s).2
      ∧ (DeleteLocalUser d l now req s).err = (l.DeleteAuthUser userID s).1 := by
  unfold DeleteLocalUser
  simp only [hv, hp]
  split <;> simp_all [errOf]

theorem DeleteLocalUser_only_own (d : Deps U P EP E C) (l l₂ : LocalUserUsecase U E σ)
    (now : T) (req : DeleteLocalUserRequest) (s : σ)
    (h : l₂.DeleteAuthUser = l.DeleteAuthUser) :
    DeleteLocalUser d l₂ now req s = DeleteLocalUser d l now req s := by
  unfold DeleteLocalUser
  rw [h]

theorem UpdateLocalUserEmail_run (d : Deps U P EP E C) (l : LocalUserUsecase U E σ)
    (now : T) (req : UpdateLocalUserEmailRequest) (s : σ) :
    ((UpdateLocalUserEmail d l now req s).calls = [] ∧ (UpdateLocalUserEmail d l now req s).state = s)
      ∨ ∃ userID, d.uuidParse req.UserId = .ok userID
        ∧ (UpdateLocalUserEmail d l now req s).calls = [.UpdateAuthUserEmail userID req.NewEmail]
        ∧ (UpdateLocalUserEmail d l now req s).state = (l.UpdateAuthUserEmail userID req.NewEmail s).2
        ∧ (UpdateLocalUserEmail d l now req s).err = errOf (l.UpdateAuthUserEmail userID req.NewEmail s).1 := by
  unfold UpdateLocalUserEmail
  split
  · left; simp
  · split
    · left; simp
    · right
      refine ⟨_, ‹_›, ?_⟩
      split <;> simp_all [errOf]

theorem UpdateLocalUserEmail_run_accepted (d : Deps U P EP E C) (l : LocalUserUsecase U E σ)
    (now : T) (req : UpdateLocalUserEmailRequest) (s : σ) (userID : U)
    (hv : d.validateUpdateLocalUserEmail req = none)
    (hp : d.uuidParse req.UserId = .ok userID) :
    (UpdateLocalUserEmail d l now req s).calls = [.UpdateAuthUserEmail userID req.NewEmail]
      ∧ (UpdateLocalUserEmail d l now req s).state = (l.UpdateAuthUserEmail userID req.NewEmail s).2
      ∧ (UpdateLocalUserEmail d l now req s).err = errOf (l.UpdateAuthUserEmail userID req.NewEmail s).1 := by
  unfold UpdateLocalUserEmail
  simp only [hv, hp]
  split <;> simp_all [errOf]

theorem UpdateLocalUserEmail_only_own (d : Deps U P EP E C) (l l₂ : LocalUserUsecase U E σ)
    (now : T) (req : UpdateLocalUserEmailRequest) (s : σ)
    (h : l₂.UpdateAuthUserEmail = l.UpdateAuthUserEmail) :
    UpdateLocalUserEmail d l₂ now req s = UpdateLocalUserEmail d l now req s := by
  unfold UpdateLocalUserEmail
  rw [h]

theorem CreateOAuthUser_run (d : Deps U P EP E C) (o : OAuthUserUsecase U EP E σ)
    (now : T) (req : CreateOAuthUserRequest P) (s : σ) :
    ((CreateOAuthUser d o now req s).calls = [] ∧ (CreateOAuthUser d o now req s).state = s)
      ∨ ∃ userID entProvider, d.uuidParse req.UserId = .ok userID
        ∧ d.FromProtoToEnt req.Provider = .ok entProvider
        ∧ (CreateOAuthUser d o now req s).calls = [.CreateOAuthUser userID entProvider req.AccessToken req.Code]
        ∧ (CreateOAuthUser d o now req s).state = (o.CreateOAuthUser userID entProvider req.AccessToken req.Code s).2
        ∧ (CreateOAuthUser d o now req s).err = errOf (o.CreateOAuthUser userID entProvider req.AccessToken req.Code s).1 := by
  unfold CreateOAuthUser
  split
  · left; simp
  · split
    · left; simp
    · split
      · left; simp
      · right
        refine ⟨_, _, ‹_›, ‹_›, ?_⟩
        split <;> simp_all [errOf]

theorem CreateOAuthUser_run_accepted (d : Deps U P EP E C) (o : OAuthUserUsecase U EP E σ)
    (now : T) (req : CreateOAuthUserRequest P) (s : σ) (userID : U) (entProvider : EP)
    (hv : d.validateCreateOAuthUser req = none)
    (hp : d.uuidParse req.UserId = .ok userID)
    (hc : d.FromProtoToEnt req.Provider = .ok entProvider) :
    (CreateOAuthUser d o now req s).calls = [.CreateOAuthUser userID entProvider req.AccessToken req.Code]
      ∧ (CreateOAuthUser d o now req s).state = (o.CreateOAuthUser userID entProvider req.AccessToken req.Code s).2
      ∧ (CreateOAuthUser d o now req s).err = errOf (o.CreateOAuthUser userID entProvider req.AccessToken req.Code s).1 := by
  unfold CreateOAuthUser
  simp only [hv, hp, hc]
  split <;> simp_all [errOf]

theorem CreateOAuthUser_only_own (d : Deps U P EP E C) (o o₂ : OAuthUserUsecase U EP E σ)
    (now : T) (req : CreateOAuthUserRequest P) (s : σ)
    (h : o₂.CreateOAuthUser = o.CreateOAuthUser) :
    CreateOAuthUser d o₂ now req s = CreateOAuthUser d o now req s := by
  unfold CreateOAuthUser
  rw [h]

theorem DeleteOAuthUser_run (d : Deps U P EP E C) (o : OAuthUserUsecase U EP E σ)
    (now : T) (req : DeleteOAuthUserRequest P) (s : σ) :
    ((DeleteOAuthUser d o now req s).calls = [] ∧ (DeleteOAuthUser d o now req s).state = s)
      ∨ ∃ userID, d.uuidParse req.UserId = .ok userID
        ∧ (DeleteOAuthUser d o now req s).calls = [.DeleteOAuthUser userID]
        ∧ (DeleteOAuthUser d o now req s).state = (o.DeleteOAuthUser userID s).2
        ∧ (DeleteOAuthUser d o now req s).err = (o.DeleteOAuthUser userID s).1 := by
  unfold DeleteOAuthUser
  split
  · left; simp
  · split
    · left; simp
    · right
      refine ⟨_, ‹_›, ?_⟩
      split <;> simp_all [errOf]

theorem DeleteOAuthUser_run_accepted (d : Deps U P EP E C) (o : OAuthUserUsecase U EP E σ)
    (now : T) (req : DeleteOAuthUserRequest P) (s : σ) (userID : U)
    (hv : d.validateDeleteOAuthUser req = none)
    (hp : d.uuidParse req.UserId = .ok userID) :
    (DeleteOAuthUser d o now req s).calls = [.DeleteOAuthUser userID]
      ∧ (DeleteOAuthUser d o now req s).state = (o.DeleteOAuthUser userID s).2
      ∧ (DeleteOAuthUser d o now req s).err = (o.DeleteOAuthUser userID s).1 := by
  unfold DeleteOAuthUser
  simp only [hv, hp]
  split <;> simp_all [errOf]

theorem DeleteOAuthUser_only_own (d : Deps U P EP E C) (o o₂ : OAuthUserUsecase U EP E σ)
    (now : T) (req : DeleteOAuthUserRequest P) (s : σ)
    (h : o₂.DeleteOAuthUser = o.DeleteOAuthUser) :
    DeleteOAuthUser d o₂ now req s = DeleteOAuthUser d o now req s := by
  unfold DeleteOAuthUser
  rw [h]

theorem SyncOAuthUser_run (d : Deps U P EP E C) (o : OAuthUserUsecase U EP E σ)
    (now : T) (req : SyncOAuthUserRequest P) (s : σ) :
    ((SyncOAuthUser d o now req s).calls = [] ∧ (SyncOAuthUser d o now req s).state = s)
      ∨ ∃ userID entProvider, d.uuidParse req.UserId = .ok userID
        ∧ d.FromProtoToEnt req.Provider = .ok entProvider
        ∧ (SyncOAuthUser d o now req s).calls = [.SyncOAuthUser userID entProvider req.AccessToken req.Code]
        ∧ (SyncOAuthUser d o now req s).state = (o.SyncOAuthUser userID entProvider req.AccessToken req.Code s).2
        ∧ (SyncOAuthUser d o now req s).err = errOf (o.SyncOAuthUser userID entProvider req.AccessToken req.Code s).1 := by
  unfold SyncOAuthUser
  split
  · left; simp
  · split
    · left; simp
    · split
      · left; simp
      · right
        refine ⟨_, _, ‹_›, ‹_›, ?_⟩
        split <;> simp_all [errOf]

theorem SyncOAuthUser_run_accepted (d : Deps U P EP E C) (o : OAuthUserUsecase U EP E σ)
    (now : T) (req : SyncOAuthUserRequest P) (s : σ) (userID : U) (entProvider : EP)
    (hv : d.validateSyncOAuthUser req = none)
    (hp : d.uuidParse req.UserId = .ok userID)
    (hc : d.FromProtoToEnt req.Provider = .ok entProvider) :
    (SyncOAuthUser d o now req s).calls = [.SyncOAuthUser userID entProvider req.AccessToken req.Code]
      ∧ (SyncOAuthUser d o now req s).state = (o.SyncOAuthUser userID entProvider req.AccessToken req.Code s).2
      ∧ (SyncOAuthUser d o now req s).err = errOf (o.SyncOAuthUser userID entProvider req.AccessToken req.Code s).1 := by
  unfold SyncOAuthUser
  simp only [hv, hp, hc]
  split <;> simp_all [errOf]

theorem SyncOAuthUser_only_own (d : Deps U P EP E C) (o o₂ : OAuthUserUsecase U EP E σ)
    (now : T) (req : SyncOAuthUserRequest P) (s : σ)
    (h : o₂.SyncOAuthUser = o.SyncOAuthUser) :
    SyncOAuthUser d o₂ now req s = SyncOAuthUser d o now req s := by
  unfold SyncOAuthUser
  rw [h]

/-! ## The password and the logger -/

theorem CreateLocalUser_password_blind (d : Deps U P EP E C) (l : LocalUserUsecase U E σ)
    (now₁ now₂ : T) (r₁ r₂ : CreateLocalUserRequest) (s₁ s₂ : σ)
    (hid : r₁.UserId = r₂.UserId)
    (hv : d.validateCreateLocalUser r₁ = d.validateCreateLocalUser r₂)
    (hu : ∀ userID, d.uuidParse r₁.UserId = .ok userID →
      (l.CreateLocalAuthUser userID r₁.Email r₁.Password s₁).1
        = (l.CreateLocalAuthUser userID r₂.Email r₂.Password s₂).1) :
    (CreateLocalUser d l now₁ r₁ s₁).err = (CreateLocalUser d l now₂ r₂ s₂).err
      ∧ (CreateLocalUser d l now₁ r₁ s₁).resp.map (fun r => r.UserId)
        = (CreateLocalUser d l now₂ r₂ s₂).resp.map (fun r => r.UserId) := by
  unfold CreateLocalUser
  simp only [hv, ← hid]
  cases hv₂ : d.validateCreateLocalUser r₂ with
  | some e => simp
  | none =>
    cases hp : d.uuidParse r₁.UserId with
    | error e => simp
    | ok userID =>
      have h := hu userID hp
      rcases h₁ : l.CreateLocalAuthUser userID r₁.Email r₁.Password s₁ with ⟨a₁, t₁⟩
      rcases h₂ : l.CreateLocalAuthUser userID r₂.Email r₂.Password s₂ with ⟨a₂, t₂⟩
      rw [h₁, h₂] at h
      simp only at h
      subst h
      cases a₁ <;> simp [h₁, h₂]

theorem CreateLocalUser_resp (d : Deps U P EP E C) (l : LocalUserUsecase U E σ)
    (now : T) (req : CreateLocalUserRequest) (s : σ) (userID : U)
    (hp : d.uuidParse req.UserId = .ok userID)
    (hc : (CreateLocalUser d l now req s).calls
      = [.CreateLocalAuthUser userID req.Email req.Password]) :
    (CreateLocalUser d l now req s).resp
      = (l.CreateLocalAuthUser userID req.Email req.Password s).1.toOption.map
          (fun createdUser =>
            { UserId := d.uuidString createdUser.UserID, CreatedAt := now }) := by
  unfold CreateLocalUser at hc ⊢
  split at hc
  · simp at hc
  · rename_i hv
    simp only [hv, hp]
    split <;> simp_all [Except.toOption]

/-- C8. No handler writes to the injected logger, on any path. Two
`CreateLocalUser` requests with the same user ID and email, however their
passwords differ, get the same error and the same response up to `CreatedAt`
whenever `Validate` answers the same for both (the same rejection, or both
pass) and the usecase returns the same result for both. The password goes
nowhere but into one `CreateLocalAuthUser` call: a run either makes no usecase
call and leaves the usecase state as it was, or its calls are the single
`CreateLocalAuthUser userID req.Email req.Password`, the state afterwards is
the state after that one application, and error and response are read off
its result; and the run is the same for any two usecases whose
`CreateLocalAuthUser` is the same, whatever their other operations do. -/
theorem password_not_logged_or_echoed (d : Deps U P EP E C) (l : LocalUserUsecase U E σ)
    (o : OAuthUserUsecase U EP E σ) :
    (∀ (now : T) (s : σ),
      (∀ req, (UpdateEmailVerification d l now req s).logs = [])
        ∧ (∀ req, (CreateLocalUser d l now req s).logs = [])
        ∧ (∀ req, (DeleteLocalUser d l now req s).logs = [])
        ∧ (∀ req, (UpdateLocalUserEmail d l now req s).logs = [])
        ∧ (∀ req, (CreateOAuthUser d o now req s).logs = [])
        ∧ (∀ req, (DeleteOAuthUser d o now req s).logs = [])
        ∧ (∀ req, (SyncOAuthUser d o now req s).logs = []))
    ∧ (∀ (now₁ now₂ : T) (s₁ s₂ : σ) (r₁ r₂ : CreateLocalUserRequest),
        r₁.UserId = r₂.UserId → r₁.Email = r₂.Email →
        d.validateCreateLocalUser r₁ = d.validateCreateLocalUser r₂ →
        (∀ userID, d.uuidParse r₁.UserId = .ok userID →
          (l.CreateLocalAuthUser userID r₁.Email r₁.Password s₁).1
            = (l.CreateLocalAuthUser userID r₂.Email r₂.Password s₂).1) →
      (CreateLocalUser d l now₁ r₁ s₁).err = (CreateLocalUser d l now₂ r₂ s₂).err
        ∧ (CreateLocalUser d l now₁ r₁ s₁).resp.map (fun r => r.UserId)
          = (CreateLocalUser d l now₂ r₂ s₂).resp.map (fun r => r.UserId))
    ∧ (∀ (now : T) (s : σ) (req : CreateLocalUserRequest),
      ((CreateLocalUser d l now req s).calls = [] ∧ (CreateLocalUser d l now req s).state = s)
        ∨ ∃ userID, d.uuidParse req.UserId = .ok userID
          ∧ (CreateLocalUser d l now req s).calls
            = [.CreateLocalAuthUser userID req.Email req.Password]
          ∧ (CreateLocalUser d l now req s).state
            = (l.CreateLocalAuthUser userID req.Email req.Password s).2
          ∧ (CreateLocalUser d l now req s).err
            = errOf (l.CreateLocalAuthUser userID req.Email req.Password s).1
          ∧ (CreateLocalUser d l now req s).resp
            = (l.CreateLocalAuthUser userID req.Email req.Password s).1.toOption.map
                (fun createdUser =>
                  { UserId := d.uuidString createdUser.UserID, CreatedAt := now }))
    ∧ (∀ (l₂ : LocalUserUsecase U E σ) (now : T) (s : σ) (req : CreateLocalUserRequest),
        l₂.CreateLocalAuthUser = l.CreateLocalAuthUser →
      CreateLocalUser d l₂ now req s = CreateLocalUser d l now req s) := by
  refine ⟨?_, ?_, ?_, ?_⟩
  · intro now s
    refine ⟨?_, ?_, ?_, ?_, ?_, ?_, ?_⟩
    · intro req
      unfold UpdateEmailVerification
      split <;> try split
      all_goals try split
      all_goals rfl
    · intro req
      unfold CreateLocalUser
      split <;> try split
      all_goals try split
      all_goals rfl
    · intro req
      unfold DeleteLocalUser
      split <;> try split
      all_goals try split
      all_goals rfl
    · intro req
      unfold UpdateLocalUserEmail
      split <;> try split
      all_goals try split
      all_goals rfl
    · intro req
      unfold CreateOAuthUser
      split <;> try split
      all_goals try split
      all_goals try split
      all_goals rfl
    · intro req
      unfold DeleteOAuthUser
      split <;> try split
      all_goals try split
      all_goals rfl
    · intro req
      unfold SyncOAuthUser
      split <;> try split
      all_goals try split
      all_goals try split
      all_goals rfl
  · intro now₁ now₂ s₁ s₂ r₁ r₂ hid _ hv hu
    exact CreateLocalUser_password_blind d l now₁ now₂ r₁ r₂ s₁ s₂ hid hv hu
  · intro now s req
    rcases CreateLocalUser_run d l now req s with h | ⟨userID, hp, hc, hs, he⟩
    · exact Or.inl h
    · exact Or.inr ⟨userID, hp, hc, hs, he, CreateLocalUser_resp d l now req s userID hp hc⟩
  · intro l₂ now s req h
    exact CreateLocalUser_only_own d l l₂ now req s h

/-- C8 at concrete inputs. Two `CreateLocalUser` requests for the same user and
email with different passwords, served at different times from the empty
example store, both pass `Validate` and get the same (nil) error and the same
user ID back. Two requests with an empty user ID and different passwords are
both rejected by `Validate` with the same error and get the same reply. -/
theorem password_not_logged_or_echoed_witness :
    (Example.deps.validateCreateLocalUser ⟨Example.lowerId, "a@example.com", "password1"⟩
        = Example.deps.validateCreateLocalUser
            ⟨Example.lowerId, "a@example.com", "correct horse"⟩
      ∧ (CreateLocalUser Example.deps Example.localUsecase (1 : Nat)
            ⟨Example.lowerId, "a@example.com", "password1"⟩ Example.emptyStore).err
          = (CreateLocalUser Example.deps Example.localUsecase
              (2 : Nat) ⟨Example.lowerId, "a@example.com", "correct horse"⟩
              Example.emptyStore).err
      ∧ (CreateLocalUser Example.deps Example.localUsecase (1 : Nat)
            ⟨Example.lowerId, "a@example.com", "password1"⟩
            Example.emptyStore).resp.map (fun r => r.UserId)
          = (CreateLocalUser Example.deps Example.localUsecase
              (2 : Nat) ⟨Example.lowerId, "a@example.com", "correct horse"⟩
              Example.emptyStore).resp.map (fun r => r.UserId))
    ∧ (Example.deps.validateCreateLocalUser ⟨"", "a@example.com", "short"⟩
        = Example.deps.validateCreateLocalUser ⟨"", "a@example.com", "password1"⟩
      ∧ (CreateLocalUser Example.deps Example.localUsecase (1 : Nat)
            ⟨"", "a@example.com", "short"⟩ Example.emptyStore).err
          = (CreateLocalUser Example.deps Example.localUsecase
              (2 : Nat) ⟨"", "a@example.com", "password1"⟩ Example.emptyStore).err
      ∧ (CreateLocalUser Example.deps Example.localUsecase (1 : Nat)
            ⟨"", "a@example.com", "short"⟩
            Example.emptyStore).resp.map (fun r => r.UserId)
          = (CreateLocalUser Example.deps Example.localUsecase
              (2 : Nat) ⟨"", "a@example.com", "password1"⟩
              Example.emptyStore).resp.map (fun r => r.UserId)) :=
  ⟨⟨rfl,
    (password_not_logged_or_echoed Example.deps Example.localUsecase
      Example.oauthUsecase).2.1 (1 : Nat) (2 : Nat) Example.emptyStore Example.emptyStore
      ⟨Example.lowerId, "a@example.com", "password1"⟩
      ⟨Example.lowerId, "a@example.com", "correct horse"⟩ rfl rfl rfl
      (fun _ _ => rfl)⟩,
   ⟨rfl,
    (password_not_logged_or_echoed Example.deps Example.localUsecase
      Example.oauthUsecase).2.1 (1 : Nat) (2 : Nat) Example.emptyStore Example.emptyStore
      ⟨"", "a@example.com", "short"⟩ ⟨"", "a@example.com", "password1"⟩ rfl rfl rfl
      (fun _ _ => rfl)⟩⟩

/-! ## At most one usecase call -/

/-- C9. No handler retries. For each of the seven handlers: a run either makes
no usecase call and leaves the usecase state as it was, or its calls are the
single call of its own operation with the parsed user ID (and converted
provider) of this request, the state afterwards is the state after exactly
that one application, and the returned error is that application's error.
Whenever `Validate`, user-ID parsing and provider conversion (where present)
succeed it is the second case, whether the application returned an error or
not, so an error is not followed by another attempt. The run depends on the
usecase through the handler's own operation only: it is the same for any two
usecases that agree on that operation. -/
theorem usecase_called_at_most_once (d : Deps U P EP E C) (l : LocalUserUsecase U E σ)
    (o : OAuthUserUsecase U EP E σ) (now : T) (s : σ) :
    (∀ req : UpdateEmailVerificationRequest,
      ((UpdateEmailVerification d l now req s).calls = [] ∧ (UpdateEmailVerification d l now req s).state = s)
        ∨ ∃ userID, d.uuidParse req.UserId = .ok userID
          ∧ (UpdateEmailVerification d l now req s).calls = [.UpdateLocalEmailVerificationStatus userID req.Verified]
          ∧ (UpdateEmailVerification d l now req s).state = (l.UpdateLocalEmailVerificationStatus userID req.Verified s).2
          ∧ (UpdateEmailVerification d l now req s).err = (l.UpdateLocalEmailVerificationStatus userID req.Verified s).1)
    ∧ (∀ req userID, d.validateUpdateEmailVerification req = none →
        d.uuidParse req.UserId = .ok userID →
      (UpdateEmailVerification d l now req s).calls = [.UpdateLocalEmailVerificationStatus userID req.Verified]
        ∧ (UpdateEmailVerification d l now req s).state = (l.UpdateLocalEmailVerificationStatus userID req.Verified s).2
        ∧ (UpdateEmailVerification d l now req s).err = (l.UpdateLocalEmailVerificationStatus userID req.Verified s).1)
    ∧ (∀ (l₂ : LocalUserUsecase U E σ) (req : UpdateEmailVerificationRequest),
        l₂.UpdateLocalEmailVerificationStatus = l.UpdateLocalEmailVerificationStatus →
      UpdateEmailVerification d l₂ now req s = UpdateEmailVerification d l now req s)
    ∧ (∀ req : CreateLocalUserRequest,
      ((CreateLocalUser d l now req s).calls = [] ∧ (CreateLocalUser d l now req s).state = s)
        ∨ ∃ userID, d.uuidParse req.UserId = .ok userID
          ∧ (CreateLocalUser d l now req s).calls = [.CreateLocalAuthUser userID req.Email req.Password]
          ∧ (CreateLocalUser d l now req s).state = (l.CreateLocalAuthUser userID req.Email req.Password s).2
          ∧ (CreateLocalUser d l now req s).err = errOf (l.CreateLocalAuthUser userID req.Email req.Password s).1)
    ∧ (∀ req userID, d.validateCreateLocalUser req = none →
        d.uuidParse req.UserId = .ok userID →
      (CreateLocalUser d l now req s).calls = [.CreateLocalAuthUser userID req.Email req.Password]
        ∧ (CreateLocalUser d l now req s).state = (l.CreateLocalAuthUser userID req.Email req.Password s).2
        ∧ (CreateLocalUser d l now req s).err = errOf (l.CreateLocalAuthUser userID req.Email req.Password s).1)
    ∧ (∀ (l₂ : LocalUserUsecase U E σ) (req : CreateLocalUserRequest),
        l₂.CreateLocalAuthUser = l.CreateLocalAuthUser →
      CreateLocalUser d l₂ now req s = CreateLocalUser d l now req s)
    ∧ (∀ req : DeleteLocalUserRequest,
      ((DeleteLocalUser d l now req s).calls = [] ∧ (DeleteLocalUser d l now req s).state = s)
        ∨ ∃ userID, d.uuidParse req.UserId = .ok userID
          ∧ (DeleteLocalUser d l now req s).calls = [.DeleteAuthUser userID]
          ∧ (DeleteLocalUser d l now req s).state = (l.DeleteAuthUser userID s).2
          ∧ (DeleteLocalUser d l now req s).err = (l.DeleteAuthUser userID s).1)
    ∧ (∀ req userID, d.validateDeleteLocalUser req = none →
        d.uuidParse req.UserId = .ok userID →
      (DeleteLocalUser d l now req s).calls = [.DeleteAuthUser userID]
        ∧ (DeleteLocalUser d l now req s).state = (l.DeleteAuthUser userID s).2
        ∧ (DeleteLocalUser d l now req s).err = (l.DeleteAuthUser userID s).1)
    ∧ (∀ (l₂ : LocalUserUsecase U E σ) (req : DeleteLocalUserRequest),
        l₂.DeleteAuthUser = l.DeleteAuthUser →
      DeleteLocalUser d l₂ now req s = DeleteLocalUser d l now req s)
    ∧ (∀ req : UpdateLocalUserEmailRequest,
      ((UpdateLocalUserEmail d l now req s).calls = [] ∧ (UpdateLocalUserEmail d l now req s).state = s)
        ∨ ∃ userID, d.uuidParse req.UserId = .ok userID
          ∧ (UpdateLocalUserEmail d l now req s).calls = [.UpdateAuthUserEmail userID req.NewEmail]
          ∧ (UpdateLocalUserEmail d l now req s).state = (l.UpdateAuthUserEmail userID req.NewEmail s).2
          ∧ (UpdateLocalUserEmail d l now req s).err = errOf (l.UpdateAuthUserEmail userID req.NewEmail s).1)
    ∧ (∀ req userID, d.validateUpdateLocalUserEmail req = none →
        d.uuidParse req.UserId = .ok userID →
      (UpdateLocalUserEmail d l now req s).calls = [.UpdateAuthUserEmail userID req.NewEmail]
        ∧ (UpdateLocalUserEmail d l now req s).state = (l.UpdateAuthUserEmail userID req.NewEmail s).2
        ∧ (UpdateLocalUserEmail d l now req s).err = errOf (l.UpdateAuthUserEmail userID req.NewEmail s).1)
    ∧ (∀ (l₂ : LocalUserUsecase U E σ) (req : UpdateLocalUserEmailRequest),
        l₂.UpdateAuthUserEmail = l.UpdateAuthUserEmail →
      UpdateLocalUserEmail d l₂ now req s = UpdateLocalUserEmail d l now req s)
    ∧ (∀ req : CreateOAuthUserRequest P,
      ((CreateOAuthUser d o now req s).calls = [] ∧ (CreateOAuthUser d o now req s).state = s)
        ∨ ∃ userID entProvider, d.uuidParse req.UserId = .ok userID
          ∧ d.FromProtoToEnt req.Provider = .ok entProvider
          ∧ (CreateOAuthUser d o now req s).calls = [.CreateOAuthUser userID entProvider req.AccessToken req.Code]
          ∧ (CreateOAuthUser d o now req s).state = (o.CreateOAuthUser userID entProvider req.AccessToken req.Code s).2
          ∧ (CreateOAuthUser d o now req s).err = errOf (o.CreateOAuthUser userID entProvider req.AccessToken req.Code s).1)
    ∧ (∀ req userID entProvider, d.validateCreateOAuthUser req = none →
        d.uuidParse req.UserId = .ok userID →
        d.FromProtoToEnt req.Provider = .ok entProvider →
      (CreateOAuthUser d o now req s).calls = [.CreateOAuthUser userID entProvider req.AccessToken req.Code]
        ∧ (CreateOAuthUser d o now req s).state = (o.CreateOAuthUser userID entProvider req.AccessToken req.Code s).2
        ∧ (CreateOAuthUser d o now req s).err = errOf (o.CreateOAuthUser userID entProvider req.AccessToken req.Code s).1)
    ∧ (∀ (o₂ : OAuthUserUsecase U EP E σ) (req : CreateOAuthUserRequest P),
        o₂.CreateOAuthUser = o.CreateOAuthUser →
      CreateOAuthUser d o₂ now req s = CreateOAuthUser d o now req s)
    ∧ (∀ req : DeleteOAuthUserRequest P,
      ((DeleteOAuthUser d o now req s).calls = [] ∧ (DeleteOAuthUser d o now req s).state = s)
        ∨ ∃ userID, d.uuidParse req.UserId = .ok userID
          ∧ (DeleteOAuthUser d o now req s).calls = [.DeleteOAuthUser userID]
          ∧ (DeleteOAuthUser d o now req s).state = (o.DeleteOAuthUser userID s).2
          ∧ (DeleteOAuthUser d o now req s).err = (o.DeleteOAuthUser userID s).1)
    ∧ (∀ req userID, d.validateDeleteOAuthUser req = none →
        d.uuidParse req.UserId = .ok userID →
      (DeleteOAuthUser d o now req s).calls = [.DeleteOAuthUser userID]
        ∧ (DeleteOAuthUser d o now req s).state = (o.DeleteOAuthUser userID s).2
        ∧ (DeleteOAuthUser d o now req s).err = (o.DeleteOAuthUser userID s).1)
    ∧ (∀ (o₂ : OAuthUserUsecase U EP E σ) (req : DeleteOAuthUserRequest P),
        o₂.DeleteOAuthUser = o.DeleteOAuthUser →
      DeleteOAuthUser d o₂ now req s = DeleteOAuthUser d o now req s)
    ∧ (∀ req : SyncOAuthUserRequest P,
      ((SyncOAuthUser d o now req s).calls = [] ∧ (SyncOAuthUser d o now req s).state = s)
        ∨ ∃ userID entProvider, d.uuidParse req.UserId = .ok userID
          ∧ d.FromProtoToEnt req.Provider = .ok entProvider
          ∧ (SyncOAuthUser d o now req s).calls = [.SyncOAuthUser userID entProvider req.AccessToken req.Code]
          ∧ (SyncOAuthUser d o now req s).state = (o.SyncOAuthUser userID entProvider req.AccessToken req.Code s).2
          ∧ (SyncOAuthUser d o now req s).err = errOf (o.SyncOAuthUser userID entProvider req.AccessToken req.Code s).1)
    ∧ (∀ req userID entProvider, d.validateSyncOAuthUser req = none →
        d.uuidParse req.UserId = .ok userID →
        d.FromProtoToEnt req.Provider = .ok entProvider →
      (SyncOAuthUser d o now req s).calls = [.SyncOAuthUser userID entProvider req.AccessToken req.Code]
        ∧ (SyncOAuthUser d o now req s).state = (o.SyncOAuthUser userID entProvider req.AccessToken req.Code s).2
        ∧ (SyncOAuthUser d o now req s).err = errOf (o.SyncOAuthUser userID entProvider req.AccessToken req.Code s).1)
    ∧ (∀ (o₂ : OAuthUserUsecase U EP E σ) (req : SyncOAuthUserRequest P),
        o₂.SyncOAuthUser = o.SyncOAuthUser →
      SyncOAuthUser d o₂ now req s = SyncOAuthUser d o now req s) :=
  ⟨fun req => UpdateEmailVerification_run d l now req s,
    fun req userID hv hp => UpdateEmailVerification_run_accepted d l now req s userID hv hp,
    fun l₂ req h => UpdateEmailVerification_only_own d l l₂ now req s h,
    fun req => CreateLocalUser_run d l now req s,
    fun req userID hv hp => CreateLocalUser_run_accepted d l now req s userID hv hp,
    fun l₂ req h => CreateLocalUser_only_own d l l₂ now req s h,
    fun req => DeleteLocalUser_run d l now req s,
    fun req userID hv hp => DeleteLocalUser_run_accepted d l now req s userID hv hp,
    fun l₂ req h => DeleteLocalUser_only_own d l l₂ now req s h,
    fun req => UpdateLocalUserEmail_run d l now req s,
    fun req userID hv hp => UpdateLocalUserEmail_run_accepted d l now req s userID hv hp,
    fun l₂ req h => UpdateLocalUserEmail_only_own d l l₂ now req s h,
    fun req => CreateOAuthUser_run d o now req s,
    fun req userID entProvider hv hp hc =>
      CreateOAuthUser_run_accepted d o now req s userID entProvider hv hp hc,
    fun o₂ req h => CreateOAuthUser_only_own d o o₂ now req s h,
    fun req => DeleteOAuthUser_run d o now req s,
    fun req userID hv hp => DeleteOAuthUser_run_accepted d o now req s userID hv hp,
    fun o₂ req h => DeleteOAuthUser_only_own d o o₂ now req s h,
    fun req => SyncOAuthUser_run d o now req s,
    fun req userID entProvider hv hp hc =>
      SyncOAuthUser_run_accepted d o now req s userID entProvider hv hp hc,
    fun o₂ req h => SyncOAuthUser_only_own d o o₂ now req s h⟩

/-- C9 at a concrete input: `DeleteLocalUser` on the empty example store applies
`DeleteAuthUser` once, returns its not-found error and leaves the store as that
one application left it. -/
theorem usecase_called_at_most_once_witness :
    Example.deps.validateDeleteLocalUser ⟨Example.upperId⟩ = none
      ∧ Example.deps.uuidParse Example.upperId = .ok Example.theId
      ∧ Example.localUsecase.DeleteAuthUser Example.theId Example.emptyStore
          = (some (.coded .ErrNotFound "local user not found"), Example.emptyStore)
      ∧ (DeleteLocalUser Example.deps Example.localUsecase (0 : Nat) ⟨Example.upperId⟩
            Example.emptyStore).calls = [.DeleteAuthUser Example.theId]
      ∧ (DeleteLocalUser Example.deps Example.localUsecase (0 : Nat) ⟨Example.upperId⟩
            Example.emptyStore).state
          = (Example.localUsecase.DeleteAuthUser Example.theId Example.emptyStore).2
      ∧ (DeleteLocalUser Example.deps Example.localUsecase (0 : Nat) ⟨Example.upperId⟩
            Example.emptyStore).err
          = (Example.localUsecase.DeleteAuthUser Example.theId Example.emptyStore).1 :=
  ⟨rfl, rfl, rfl,
    (usecase_called_at_most_once Example.deps Example.localUsecase Example.oauthUsecase
      (0 : Nat) Example.emptyStore).2.2.2.2.2.2.2.1 ⟨Example.upperId⟩ Example.theId rfl rfl⟩

/-! ## Echoed user IDs -/

/-- C10. On success `UpdateEmailVerification`, `DeleteLocalUser` and
`DeleteOAuthUser` answer with the request's own `UserId` string (and
`UpdateEmailVerification` with the request's `Verified`), not with a record.
So when a user ID string `uid` is accepted by `uuid.Parse` but is not the
canonical spelling of the UUID it denotes, a successful `DeleteLocalUser` for
`uid` reports `uid`, while a successful `CreateLocalUser` or
`UpdateLocalUserEmail` for `uid` whose record carries that UUID reports the
canonical spelling, a different string. -/
theorem echo_handlers_return_request_user_id (d : Deps U P EP E C)
    (l : LocalUserUsecase U E σ) (o : OAuthUserUsecase U EP E σ) (now : T) :
    (∀ (s s' : σ) req userID, d.validateUpdateEmailVerification req = none →
        d.uuidParse req.UserId = .ok userID →
        l.UpdateLocalEmailVerificationStatus userID req.Verified s = (none, s') →
      (UpdateEmailVerification d l now req s).Returns
        (some { UserId := req.UserId, Verified := req.Verified, UpdatedAt := now }) none)
    ∧ (∀ (s s' : σ) req userID, d.validateDeleteLocalUser req = none →
        d.uuidParse req.UserId = .ok userID →
        l.DeleteAuthUser userID s = (none, s') →
      (DeleteLocalUser d l now req s).Returns
        (some { UserId := req.UserId, DeletedAt := now }) none)
    ∧ (∀ (s s' : σ) req userID, d.validateDeleteOAuthUser req = none →
        d.uuidParse req.UserId = .ok userID →
        o.DeleteOAuthUser userID s = (none, s') →
      (DeleteOAuthUser d o now req s).Returns
        (some { UserId := req.UserId, Provider := req.Provider, DeletedAt := now }) none)
    ∧ (∀ (uid : String) (userID : U), d.uuidParse uid = .ok userID →
        d.uuidString userID ≠ uid →
      (∀ (s s' t t' : σ) (dreq : DeleteLocalUserRequest) (creq : CreateLocalUserRequest)
          (createdUser : LocalAuthUser U),
          dreq.UserId = uid → creq.UserId = uid →
          d.validateDeleteLocalUser dreq = none → d.validateCreateLocalUser creq = none →
          l.DeleteAuthUser userID s = (none, s') →
          l.CreateLocalAuthUser userID creq.Email creq.Password t = (.ok createdUser, t') →
          createdUser.UserID = userID →
        (DeleteLocalUser d l now dreq s).resp.map (fun r => r.UserId) = some uid
          ∧ (CreateLocalUser d l now creq t).resp.map (fun r => r.UserId)
            = some (d.uuidString userID)
          ∧ (DeleteLocalUser d l now dreq s).resp.map (fun r => r.UserId)
            ≠ (CreateLocalUser d l now creq t).resp.map (fun r => r.UserId))
      ∧ (∀ (s s' t t' : σ) (dreq : DeleteLocalUserRequest)
          (ureq : UpdateLocalUserEmailRequest) (updatedUser : LocalAuthUser U),
          dreq.UserId = uid → ureq.UserId = uid →
          d.validateDeleteLocalUser dreq = none → d.validateUpdateLocalUserEmail ureq = none →
          l.DeleteAuthUser userID s = (none, s') →
          l.UpdateAuthUserEmail userID ureq.NewEmail t = (.ok updatedUser, t') →
          updatedUser.UserID = userID →
        (DeleteLocalUser d l now dreq s).resp.map (fun r => r.UserId) = some uid
          ∧ (UpdateLocalUserEmail d l now ureq t).resp.map (fun r => r.UserId)
            = some (d.uuidString userID)
          ∧ (DeleteLocalUser d l now dreq s).resp.map (fun r => r.UserId)
            ≠ (UpdateLocalUserEmail d l now ureq t).resp.map (fun r => r.UserId))) := by
  refine ⟨?_, ?_, ?_, ?_⟩
  · intro s s' req userID hv hp hu
    rw [UpdateEmailVerification_done d l now req s s' userID hv hp hu]
    exact ⟨rfl, rfl⟩
  · intro s s' req userID hv hp hu
    rw [DeleteLocalUser_done d l now req s s' userID hv hp hu]
    exact ⟨rfl, rfl⟩
  · intro s s' req userID hv hp hu
    rw [DeleteOAuthUser_done d o now req s s' userID hv hp hu]
    exact ⟨rfl, rfl⟩
  · intro uid userID hp hne
    refine ⟨?_, ?_⟩
    · intro s s' t t' dreq creq createdUser hd hc hvd hvc hud huc hrec
      rw [DeleteLocalUser_done d l now dreq s s' userID hvd (hd ▸ hp) hud,
        CreateLocalUser_done d l now creq t t' userID createdUser hvc (hc ▸ hp) huc]
      simp only [Option.map_some', hd, hrec, ne_eq, Option.some.injEq, true_and]
      exact fun h => hne h.symm
    · intro s s' t t' dreq ureq updatedUser hd hu hvd hvu hud huu hrec
      rw [DeleteLocalUser_done d l now dreq s s' userID hvd (hd ▸ hp) hud,
        UpdateLocalUserEmail_done d l now ureq t t' userID updatedUser hvu (hu ▸ hp) huu]
      simp only [Option.map_some', hd, hrec, ne_eq, Option.some.injEq, true_and]
      exact fun h => hne h.symm

/-- C10 at a concrete input: for the upper-case spelling of a user ID,
`DeleteLocalUser` reports the upper-case string it was given and
`CreateLocalUser` reports the lower-case canonical form. -/
theorem echo_handlers_return_request_user_id_witness :
    Example.deps.uuidParse "A3BB189E-8BF9-3888-9912-ACE4E6543002" = .ok Example.theId
      ∧ Example.deps.uuidString Example.theId = "a3bb189e-8bf9-3888-9912-ace4e6543002"
      ∧ (DeleteLocalUser Example.deps Example.localUsecase (0 : Nat)
            ⟨"A3BB189E-8BF9-3888-9912-ACE4E6543002"⟩
            Example.oneUserStore).resp.map (fun r => r.UserId)
          = some "A3BB189E-8BF9-3888-9912-ACE4E6543002"
      ∧ (CreateLocalUser Example.deps Example.localUsecase (0 : Nat)
            ⟨"A3BB189E-8BF9-3888-9912-ACE4E6543002", "a@example.com", "password1"⟩
            Example.emptyStore).resp.map (fun r => r.UserId)
          = some (Example.deps.uuidString Example.theId)
      ∧ (DeleteLocalUser Example.deps Example.localUsecase (0 : Nat)
            ⟨"A3BB189E-8BF9-3888-9912-ACE4E6543002"⟩
            Example.oneUserStore).resp.map (fun r => r.UserId)
          ≠ (CreateLocalUser Example.deps Example.localUsecase (0 : Nat)
              ⟨"A3BB189E-8BF9-3888-9912-ACE4E6543002", "a@example.com", "password1"⟩
              Example.emptyStore).resp.map (fun r => r.UserId) :=
  ⟨rfl, rfl,
    ((echo_handlers_return_request_user_id Example.deps Example.localUsecase
      Example.oauthUsecase (0 : Nat)).2.2.2 "A3BB189E-8BF9-3888-9912-ACE4E6543002"
      Example.theId rfl (by decide)).1 Example.oneUserStore
      ⟨[], [(.google, ⟨Example.theId, "g-123", "user@example.com", true⟩)]⟩
      Example.emptyStore ⟨[⟨Example.theId, "a@example.com"⟩], []⟩
      ⟨"A3BB189E-8BF9-3888-9912-ACE4E6543002"⟩
      ⟨"A3BB189E-8BF9-3888-9912-ACE4E6543002", "a@example.com", "password1"⟩
      ⟨Example.theId, "a@example.com"⟩ rfl rfl rfl rfl rfl rfl rfl⟩

/-! ## Provider conversion errors -/

/-- C3 evaluated in the example instance. A request with a valid user ID and
the unspecified provider passes `Validate` and `uuid.Parse` and fails
`FromProtoToEnt`. `SyncOAuthUser` answers with that error upgraded to
`ErrInvalidFormat` under the message `Invalid provider format`;
`CreateOAuthUser` answers with the conversion error itself, not upgraded.
Neither calls the usecase. -/
theorem createOAuthUser_returns_raw_conversion_error :
    Example.deps.validateCreateOAuthUser ⟨Example.lowerId, .UNSPECIFIED, "tok-1", ""⟩ = none
      ∧ Example.deps.validateSyncOAuthUser ⟨Example.lowerId, .UNSPECIFIED, "tok-1", ""⟩ = none
      ∧ Example.deps.uuidParse Example.lowerId = .ok Example.theId
      ∧ Example.deps.FromProtoToEnt Example.Provider.UNSPECIFIED
          = .error (.raw "unsupported provider")
      ∧ (SyncOAuthUser Example.deps Example.oauthUsecase (0 : Nat)
            ⟨Example.lowerId, .UNSPECIFIED, "tok-1", ""⟩ Example.oneUserStore).Returns none
          (some (.upgraded (.raw "unsupported provider") "Invalid provider format"
            .ErrInvalidFormat))
      ∧ (SyncOAuthUser Example.deps Example.oauthUsecase (0 : Nat)
            ⟨Example.lowerId, .UNSPECIFIED, "tok-1", ""⟩ Example.oneUserStore).calls = []
      ∧ (CreateOAuthUser Example.deps Example.oauthUsecase (0 : Nat)
            ⟨Example.lowerId, .UNSPECIFIED, "tok-1", ""⟩ Example.emptyStore).Returns none
          (some (.raw "unsupported provider"))
      ∧ (CreateOAuthUser Example.deps Example.oauthUsecase (0 : Nat)
            ⟨Example.lowerId, .UNSPECIFIED, "tok-1", ""⟩ Example.emptyStore).calls = []
      ∧ (∀ msg, (CreateOAuthUser Example.deps Example.oauthUsecase (0 : Nat)
            ⟨Example.lowerId, .UNSPECIFIED, "tok-1", ""⟩ Example.emptyStore).err
          ≠ some (Example.deps.Upgrade (.raw "unsupported provider") msg
              Example.deps.ErrInvalidFormat)) :=
  ⟨rfl, rfl, rfl, rfl, ⟨rfl, rfl⟩, rfl, ⟨rfl, rfl⟩, rfl,
    fun msg h => by
      have h' : Example.Err.raw "unsupported provider"
          = Example.Err.upgraded (.raw "unsupported provider") msg .ErrInvalidFormat :=
        Option.some.inj h
      exact Example.Err.noConfusion h'⟩

end Claims

end Grpchandlerv1
